import Mathlib

/-!
Verification development for the `urpc32/group` repository: a collection of
near-duplicate serverless HTTP handlers that relay a client-supplied Roblox
session cookie and numeric identifiers to the Roblox group-management API,
obtain an anti-forgery (CSRF) token from a response header, and forward a
change-owner mutation.

The JavaScript sources are shallowly embedded as pure Lean functions:
  * JSON values become the inductive type `J`;
  * the network is an oracle `t : Nat -> FetchOutcome` consumed in call order
    (the n-th fetch issued by a handler observes `t n`); a fetch either yields
    a `RemoteResponse` or throws with a message;
  * each remote response carries its status, the (case-insensitively looked
    up) `x-csrf-token` header value, its body text, the JSON parse of that
    text (`none` when parsing would throw) and the message such a parse error
    would carry;
  * every outbound call is recorded as an `Outbound` value (URL, the cookie
    header sent, the CSRF header sent), so that claims about the absence of
    network calls and about secret non-interference are about real data flow;
  * request payload fields are modelled as optional strings (the JSON
    transport allows strings; `parseInt` behaves identically on the decimal
    renderings of numbers);
  * time-dependent effects (`new Date()` arithmetic, ISO timestamps) become
    explicit parameters (`ageOf`, `nowISO`).
-/

set_option maxHeartbeats 4000000
set_option maxRecDepth 4000

/-- JSON-like values used for request/response bodies. -/
inductive J where
  | null
  | bool (b : Bool)
  | num (n : Int)
  | str (s : String)
  | arr (xs : List J)
  | obj (fs : List (String × J))
deriving BEq

/-- JavaScript truthiness of a JSON value (objects and arrays are always
truthy, `0`, `""`, `false`, `null` are falsy). -/
def truthyJ : J → Bool
  | J.null => false
  | J.bool b => b
  | J.num n => n != 0
  | J.str s => s != ""
  | J.arr _ => true
  | J.obj _ => true

/-- Property lookup `v.k` on a JSON value; `none` models `undefined`. -/
def jGet (v : J) (k : String) : Option J :=
  match v with
  | J.obj fs => fs.lookup k
  | _ => none

/-- Truthiness of a possibly-undefined value (`undefined` is falsy). -/
def truthyO (o : Option J) : Bool :=
  match o with
  | some v => truthyJ v
  | none => false

/-- String content of a possibly-undefined value, defaulting to `""`. -/
def jStrD (o : Option J) : String :=
  match o with
  | some (J.str s) => s
  | _ => ""

/-- One remote HTTP response as observed by the handlers. `csrfHeader` is the
result of looking up the `x-csrf-token` header (the Fetch API header lookup is
case-insensitive, so the three casing variants the sources probe all read this
one value). `bodyJson` is the JSON parse of `bodyText` (`none` when `json()`
would throw) and `parseErrMsg` the message of that parse error. -/
structure RemoteResponse where
  status : Nat
  csrfHeader : Option String
  bodyText : String
  bodyJson : Option J
  parseErrMsg : String := ""
deriving BEq

/-- Outcome of one `fetch`: a response, or a thrown network-level error. -/
inductive FetchOutcome where
  | resp (r : RemoteResponse)
  | thrown (msg : String)
deriving BEq

/-- Record of one outbound call issued by a handler: the URL, the value sent
in the `Cookie` header, and the CSRF header if one was attached. -/
structure Outbound where
  url : String
  cookieHeader : String
  csrf : Option String
deriving BEq

/-- The response a handler returns to its caller: HTTP status, the `Allow`
header if one was set, and the JSON body. -/
structure LocalResponse where
  status : Nat
  allow : Option String
  body : J
deriving BEq

/-- The payload fields the various handlers destructure from the request
body.  Absent fields are `none` (JavaScript `undefined`). -/
structure Fields where
  cookie : Option String := none
  groupId : Option String := none
  userId : Option String := none
  targetId : Option String := none
  csrfToken : Option String := none
  playerId : Option String := none
  ownerId : Option String := none
  newOwnerId : Option String := none
deriving BEq

/-- An inbound request for the raw-body handlers: `raw = none` models the
body stream throwing during the manual read; `parsed` is the `JSON.parse`
of the raw text (`none` when parsing throws) and `parseMsg` that parse
error's message. -/
structure RawReq where
  method : String
  raw : Option String := none
  parsed : Option Fields := none
  parseMsg : String := ""

/-- An inbound request for the handlers that rely on the platform body
parser (`req.body` already an object). -/
structure SimpleReq where
  method : String
  body : Fields

/-- String value of a possibly-absent payload field (JS destructuring with
later string use; absent defaults to the empty string). -/
def fS (o : Option String) : String := o.getD ""

/-- JavaScript truthiness of a possibly-absent string field. -/
def truthyS (o : Option String) : Bool := fS o != ""

/-- JSON rendering of a possibly-absent string field. -/
def jOptStr (o : Option String) : J :=
  match o with
  | some s => J.str s
  | none => J.null

/-- Decimal digit test. -/
def isDigitChar (c : Char) : Bool := '0' ≤ c && c ≤ '9'

/-- Value of a list of decimal digits. -/
def digitsVal (l : List Char) : Nat :=
  l.foldl (fun a c => a * 10 + (c.toNat - 48)) 0

/-- JavaScript `parseInt(s, 10)`: skip leading whitespace, optional sign,
then the longest run of decimal digits; `none` models `NaN`. -/
def parseIntJS (s : String) : Option Int :=
  let l := s.toList.dropWhile (fun c => c.isWhitespace)
  let signAndRest : Int × List Char :=
    match l with
    | '-' :: rest => (-1, rest)
    | '+' :: rest => (1, rest)
    | _ => (1, l)
  let ds := signAndRest.2.takeWhile isDigitChar
  if ds.isEmpty then none else some (signAndRest.1 * (digitsVal ds : Int))

/-- Decimal rendering of an id, with `none` (JS `NaN`) printing as `NaN` --
how a `NaN` id appears inside template strings. -/
def jsIntStr (o : Option Int) : String :=
  match o with
  | some n => toString n
  | none => "NaN"

/-- JSON rendering of a numeric value that may be `NaN` (`JSON.stringify`
turns `NaN` into `null`). -/
def jNum (o : Option Int) : J :=
  match o with
  | some n => J.num n
  | none => J.null

/-- Strict equality `a === b` between JS numbers that may be `NaN`
(`NaN === x` is always false, including `NaN === NaN`). -/
def eqNum (a b : Option Int) : Bool :=
  match a, b with
  | some x, some y => x == y
  | _, _ => false

/-- JavaScript `parseInt` applied to a JSON value (numbers pass through,
strings are parsed, everything else is `NaN`). -/
def jParseInt (o : Option J) : Option Int :=
  match o with
  | some (J.num n) => some n
  | some (J.str s) => parseIntJS s
  | _ => none

/-- `s.trim()` over the character list (kernel-reducible). -/
def trimJS (s : String) : String :=
  String.mk (((s.data.dropWhile Char.isWhitespace).reverse.dropWhile
    Char.isWhitespace).reverse)

/-- `s.startsWith(p)` over the character list. -/
def startsWithJS (s p : String) : Bool := p.data.isPrefixOf s.data

/-- `s.endsWith(p)` over the character list. -/
def endsWithJS (s p : String) : Bool := p.data.reverse.isPrefixOf s.data.reverse

/-- `s.substring(n)` over the character list. -/
def dropJS (s : String) (n : Nat) : String := String.mk (s.data.drop n)

/-- Drop the last `n` characters. -/
def dropRightJS (s : String) (n : Nat) : String :=
  String.mk (s.data.take (s.data.length - n))

/-- `s.substring(0, n)` over the character list. -/
def takeJS (s : String) (n : Nat) : String := String.mk (s.data.take n)

/-- The `.replace(/^["']|["']$/g, "")` cleanup: drop one surrounding quote
character (double or single) from each end. -/
def stripQuotesJS (s : String) : String :=
  let s1 := if startsWithJS s "\"" || startsWithJS s "\x27" then dropJS s 1 else s
  if endsWithJS s1 "\"" || endsWithJS s1 "\x27" then dropRightJS s1 1 else s1

/-- The `.ROBLOSECURITY=` cookie-pair prefix strip used by every variant. -/
def stripRobloPrefix (s : String) : String :=
  if startsWithJS s ".ROBLOSECURITY=" then dropJS s ".ROBLOSECURITY=".length else s

/-- `Response.ok` of the Fetch API: status in the 200-299 range. -/
def okStatus (s : Nat) : Bool := 200 ≤ s && s ≤ 299

/-- JavaScript `s || d` for strings: the default when `s` is empty. -/
def strOr (s d : String) : String := if s = "" then d else s

/-- Infix test on character lists, used to model `String.includes`. -/
def listIncl (pat : List Char) : List Char → Bool
  | [] => pat.isEmpty
  | c :: rest => pat.isPrefixOf (c :: rest) || listIncl pat rest

/-- JavaScript `s.includes(sub)`. -/
def strIncludes (s sub : String) : Bool := listIncl sub.toList s.toList

/-- The message a double body read produces at runtime (reading `text()`
after `json()` already consumed the body). -/
def bodyUsedMsg : String := "Body is unusable"

/-- Result of the fallback-chain token acquirer `getCSRFToken`. -/
inductive CSRFRes where
  | success (token : String)
  | failure (error : String)
deriving BEq

/-- The primary token-fetch endpoint tried by `getCSRFToken`. -/
def loginUrl : String := "https://auth.roblox.com/v2/login"

/-- The ordered fallback endpoints of `getCSRFToken`. -/
def csrfEndpoints : List String :=
  ["https://auth.roblox.com/v2/logout",
   "https://friends.roblox.com/v1/users/1/request-friendship",
   "https://groups.roblox.com/v1/groups/1/join-requests"]

/-- The constant diagnostic `getCSRFToken` fails with once every endpoint in
the chain has been exhausted. -/
def csrfExhaustedMsg : String := "Failed to obtain CSRF token from any endpoint"

/-- The fallback loop of `getCSRFToken` (transfer.js, lines 346-370): for
each endpoint issue the call; a response whose headers carry a token returns
success immediately; a token-less response or a thrown call advances to the
next endpoint. -/
def csrfFallback (cookieToken : String) (t : Nat → FetchOutcome) :
    Nat → List Outbound → List String → CSRFRes × List Outbound
  | _, acc, [] => (CSRFRes.failure csrfExhaustedMsg, acc)
  | i, acc, url :: rest =>
    let acc2 := acc ++ [⟨url, ".ROBLOSECURITY=" ++ cookieToken, none⟩]
    match t i with
    | FetchOutcome.resp r =>
      match r.csrfHeader with
      | some tok => (CSRFRes.success tok, acc2)
      | none => csrfFallback cookieToken t (i + 1) acc2 rest
    | FetchOutcome.thrown _ => csrfFallback cookieToken t (i + 1) acc2 rest

/-- `getCSRFToken` (transfer.js, lines 312-376): try the login endpoint
first; if its response headers carry the token, succeed; otherwise (token
absent or call thrown) walk the ordered fallback endpoints the same way;
with everything exhausted, fail with the constant diagnostic. -/
def getCSRFToken (cookieToken : String) (t : Nat → FetchOutcome) :
    CSRFRes × List Outbound :=
  let primary : Outbound := ⟨loginUrl, ".ROBLOSECURITY=" ++ cookieToken, none⟩
  match t 0 with
  | FetchOutcome.resp r =>
    match r.csrfHeader with
    | some tok => (CSRFRes.success tok, [primary])
    | none => csrfFallback cookieToken t 1 [primary] csrfEndpoints
  | FetchOutcome.thrown _ => csrfFallback cookieToken t 1 [primary] csrfEndpoints

/-- Token visible in one fetch outcome: the header value when the attempt
produced a response, nothing when it threw. -/
def attemptToken : FetchOutcome → Option String
  | FetchOutcome.resp r => r.csrfHeader
  | FetchOutcome.thrown _ => none

/-- First token visible among the `n` attempts starting at index `i`. -/
def scanTok (t : Nat → FetchOutcome) : Nat → Nat → Option String
  | _, 0 => none
  | i, n + 1 => (attemptToken (t i)).orElse (fun _ => scanTok t (i + 1) n)

/-- The fallback loop returns the first token visible among its remaining
attempts, else the constant failure; the accumulated outbound log only
grows. -/
theorem csrfFallback_result (c : String) (t : Nat → FetchOutcome) :
    ∀ (urls : List String) (i : Nat) (acc : List Outbound),
      (csrfFallback c t i acc urls).1 =
        match scanTok t i urls.length with
        | some tok => CSRFRes.success tok
        | none => CSRFRes.failure csrfExhaustedMsg := by
  intro urls
  induction urls with
  | nil => intro i acc; rfl
  | cons url rest ih =>
    intro i acc
    show (csrfFallback c t i acc (url :: rest)).1 = _
    unfold csrfFallback
    cases h0 : t i with
    | resp r =>
      cases hh : r.csrfHeader with
      | some tok =>
        simp [scanTok, attemptToken, h0, hh, Option.orElse]
      | none =>
        simp [scanTok, attemptToken, h0, hh, Option.orElse, ih]
    | thrown m =>
      simp [scanTok, attemptToken, h0, Option.orElse, ih]

/-- Characterisation of the acquirer's result: the first token visible among
the four attempts in order, else the constant failure. -/
theorem getCSRFToken_result (c : String) (t : Nat → FetchOutcome) :
    (getCSRFToken c t).1 =
      match scanTok t 0 4 with
      | some tok => CSRFRes.success tok
      | none => CSRFRes.failure csrfExhaustedMsg := by
  unfold getCSRFToken
  cases h0 : t 0 with
  | resp r =>
    cases hh : r.csrfHeader with
    | some tok =>
      simp [scanTok, attemptToken, h0, hh, Option.orElse]
    | none =>
      have h := csrfFallback_result c t csrfEndpoints 1
        [⟨loginUrl, ".ROBLOSECURITY=" ++ c, none⟩]
      have hlen : csrfEndpoints.length = 3 := rfl
      rw [hlen] at h
      dsimp only
      rw [hh, h]
      simp [scanTok, attemptToken, h0, hh, Option.orElse]
  | thrown m =>
    have h := csrfFallback_result c t csrfEndpoints 1
      [⟨loginUrl, ".ROBLOSECURITY=" ++ c, none⟩]
    have hlen : csrfEndpoints.length = 3 := rfl
    rw [hlen] at h
    dsimp only
    rw [h]
    simp [scanTok, attemptToken, h0, Option.orElse]

/-- Base URL builder for the v1 change-owner endpoint. -/
def changeOwnerUrl (gid : Int) : String :=
  "https://groups.roblox.com/v1/groups/" ++ toString gid ++ "/change-owner"

/-- Handler of `api/get-csrf.js` (src/unnamed/part_003): logout-trick CSRF
fetch with quote-stripped cookie; the token header is the only success
signal. -/
def getCsrf3 (req : RawReq) (t : Nat → FetchOutcome) :
    LocalResponse × List Outbound :=
  if req.method ≠ "POST" then
    (⟨405, some "POST", J.obj [("error", J.str "Method not allowed")]⟩, [])
  else
    match req.raw with
    | none => (⟨400, none, J.obj [("error", J.str "No body sent")]⟩, [])
    | some rawBody =>
      if trimJS rawBody = "" then
        (⟨400, none, J.obj [("error", J.str "No body sent")]⟩, [])
      else
        match req.parsed with
        | none => (⟨400, none, J.obj [("error", J.str "Invalid JSON")]⟩, [])
        | some f =>
          let cookie := stripQuotesJS (trimJS (fS f.cookie))
          if cookie = "" then
            (⟨400, none,
              J.obj [("error", J.str "Missing .ROBLOSECURITY cookie")]⟩, [])
          else
            let out : Outbound :=
              ⟨"https://auth.roblox.com/v2/logout",
                ".ROBLOSECURITY=" ++ cookie, none⟩
            match t 0 with
            | FetchOutcome.thrown m =>
              (⟨500, none, J.obj
                 [("error", J.str "Unexpected error while fetching CSRF token"),
                  ("details", J.str m)]⟩, [out])
            | FetchOutcome.resp r =>
              match r.csrfHeader with
              | none =>
                (⟨400, none, J.obj
                   [("error", J.str "Failed to retrieve X-CSRF-TOKEN"),
                    ("tip", J.str "Cookie might be invalid, expired, or IP-banned"),
                    ("robloxStatus", J.num (r.status : Int)),
                    ("robloxBody", J.str r.bodyText)]⟩, [out])
              | some tok =>
                (⟨200, none, J.obj
                   [("success", J.bool true),
                    ("csrfToken", J.str tok),
                    ("message", J.str "Fresh X-CSRF-TOKEN obtained – ready to change owner")]⟩,
                 [out])

/-- Handler of `pages/api/get-csrf.js` (src/unnamed/part_001): login-endpoint
CSRF fetch; rejects a cleaned cookie that is empty, shorter than 10
characters, or does not start with `CA` before any network call. -/
def getCsrf1 (req : RawReq) (nowISO : String) (t : Nat → FetchOutcome) :
    LocalResponse × List Outbound :=
  if req.method ≠ "POST" then
    (⟨405, some "POST", J.obj [("error", J.str "Method not allowed")]⟩, [])
  else
    match req.raw with
    | none =>
      (⟨400, none, J.obj [("error", J.str "Failed to read request body")]⟩, [])
    | some rawBody =>
      match (if rawBody = "" then some {} else req.parsed) with
      | none =>
        (⟨400, none,
          J.obj [("error", J.str "Invalid JSON in request body")]⟩, [])
      | some f =>
        let cookie := stripRobloPrefix (trimJS (fS f.cookie))
        if cookie = "" ∨ cookie.length < 10 ∨ ¬ startsWithJS cookie "CA" then
          (⟨400, none, J.obj
             [("error", J.str "Invalid or missing .ROBLOSECURITY cookie"),
              ("tip", J.str "Cookie should start with \x27CA\x27 (like CAEaAhADIhwKBG...)")]⟩,
           [])
        else
          let out : Outbound := ⟨loginUrl, ".ROBLOSECURITY=" ++ cookie, none⟩
          match t 0 with
          | FetchOutcome.thrown m =>
            (⟨500, none, J.obj
               [("success", J.bool false),
                ("error", J.str "Internal server error while fetching CSRF token"),
                ("details", J.str m)]⟩, [out])
          | FetchOutcome.resp r =>
            match r.csrfHeader with
            | none =>
              (⟨400, none, J.obj
                 [("success", J.bool false),
                  ("error", J.str "No X-CSRF-TOKEN returned from Roblox"),
                  ("tip", J.str "Your cookie is likely expired, invalid, or rate-limited"),
                  ("status", J.num (r.status : Int)),
                  ("responseBody", J.str (takeJS r.bodyText 500))]⟩, [out])
            | some tok =>
              (⟨200, none, J.obj
                 [("success", J.bool true),
                  ("csrfToken", J.str tok),
                  ("message", J.str "Fresh X-CSRF-TOKEN fetched successfully (safe method)"),
                  ("fetchedAt", J.str nowISO)]⟩, [out])

/-- Status-specific error strings of the change-group-owner variant
(src/unnamed/part_002, `errorMessages`). -/
def errMsg2 (s : Nat) : Option String :=
  if s = 400 then some "Bad request - Invalid groupId or userId format"
  else if s = 401 then some "Unauthorized - Cookie is invalid or expired"
  else if s = 403 then
    some "Forbidden - You may not have permission to transfer this group, or user is not in the group"
  else if s = 404 then some "Not found - Group or user does not exist"
  else if s = 429 then some "Rate limited - Too many requests, try again later"
  else if s = 500 then some "Roblox server error - Try again later"
  else if s = 503 then some "Roblox service unavailable - Try again later"
  else none

/-- Handler of `pages/api/change-group-owner.js` (src/unnamed/part_002, two
identical copies in the file): validates ids as positive numbers and the
cleaned cookie (length and `CA` prefix), fetches the CSRF token from the
change-owner endpoint itself, then replays the mutation; upstream 5xx maps
to a local 502. -/
def changeGroupOwner2 (req : RawReq) (nowISO : String)
    (t : Nat → FetchOutcome) : LocalResponse × List Outbound :=
  if req.method ≠ "POST" then
    (⟨405, some "POST", J.obj [("error", J.str "Method not allowed")]⟩, [])
  else
    match req.raw with
    | none =>
      (⟨400, none, J.obj [("error", J.str "Failed to read request body")]⟩, [])
    | some rawBody =>
      match (if rawBody = "" then some {} else req.parsed) with
      | none =>
        (⟨400, none,
          J.obj [("error", J.str "Invalid JSON in request body")]⟩, [])
      | some f =>
        if !truthyS f.groupId then
          (⟨400, none, J.obj
             [("success", J.bool false),
              ("error", J.str "Missing required field: groupId"),
              ("tip", J.str "Provide the numeric ID of the group you want to transfer ownership of")]⟩,
           [])
        else if !truthyS f.userId then
          (⟨400, none, J.obj
             [("success", J.bool false),
              ("error", J.str "Missing required field: userId"),
              ("tip", J.str "Provide the numeric user ID of the new owner")]⟩,
           [])
        else
          match parseIntJS (fS f.groupId), parseIntJS (fS f.userId) with
          | none, _ =>
            (⟨400, none, J.obj
               [("success", J.bool false), ("error", J.str "Invalid groupId"),
                ("tip", J.str "groupId must be a positive number")]⟩, [])
          | some g, _ =>
            if g ≤ 0 then
              (⟨400, none, J.obj
                 [("success", J.bool false), ("error", J.str "Invalid groupId"),
                  ("tip", J.str "groupId must be a positive number")]⟩, [])
            else
              match parseIntJS (fS f.userId) with
              | none =>
                (⟨400, none, J.obj
                   [("success", J.bool false), ("error", J.str "Invalid userId"),
                    ("tip", J.str "userId must be a positive number")]⟩, [])
              | some u =>
                if u ≤ 0 then
                  (⟨400, none, J.obj
                     [("success", J.bool false), ("error", J.str "Invalid userId"),
                      ("tip", J.str "userId must be a positive number")]⟩, [])
                else
                  let cookie := stripRobloPrefix (trimJS (fS f.cookie))
                  if cookie = "" ∨ cookie.length < 10 ∨ ¬ startsWithJS cookie "CA" then
                    (⟨400, none, J.obj
                       [("success", J.bool false),
                        ("error", J.str "Invalid or missing .ROBLOSECURITY cookie"),
                        ("tip", J.str "Cookie should start with \x27CA\x27 (like CAEaAhADIhwKBG...)")]⟩,
                     [])
                  else
                    let out1 : Outbound :=
                      ⟨changeOwnerUrl g, ".ROBLOSECURITY=" ++ cookie, none⟩
                    match t 0 with
                    | FetchOutcome.thrown m =>
                      (⟨500, none, J.obj
                         [("success", J.bool false),
                          ("error", J.str "Internal server error while fetching CSRF token"),
                          ("details", J.str m)]⟩, [out1])
                    | FetchOutcome.resp r =>
                      match r.csrfHeader with
                      | none =>
                        (⟨400, none, J.obj
                           [("success", J.bool false),
                            ("error", J.str "Failed to obtain CSRF token from Roblox"),
                            ("tip", J.str "Your cookie may be expired or invalid. Make sure you\x27re using a valid .ROBLOSECURITY cookie."),
                            ("status", J.num (r.status : Int)),
                            ("details", J.str (takeJS r.bodyText 200))]⟩, [out1])
                      | some tok =>
                        let out2 : Outbound :=
                          ⟨changeOwnerUrl g, ".ROBLOSECURITY=" ++ cookie, some tok⟩
                        match t 1 with
                        | FetchOutcome.thrown m =>
                          (⟨500, none, J.obj
                             [("success", J.bool false),
                              ("error", J.str "Internal server error while changing group owner"),
                              ("details", J.str m),
                              ("tip", J.str "Check your network connection and try again")]⟩,
                           [out1, out2])
                        | FetchOutcome.resp r2 =>
                          let responseData :=
                            if r2.bodyText = "" then J.obj []
                            else
                              match r2.bodyJson with
                              | some d => d
                              | none =>
                                J.obj [("rawResponse", J.str (takeJS r2.bodyText 500))]
                          if r2.status = 200 then
                            (⟨200, none, J.obj
                               [("success", J.bool true),
                                ("message", J.str "Group ownership transferred successfully"),
                                ("groupId", J.num g),
                                ("newOwnerId", J.num u),
                                ("responseData", responseData),
                                ("transferredAt", J.str nowISO)]⟩, [out1, out2])
                          else
                            (⟨(if r2.status ≥ 500 then 502 else r2.status), none,
                              J.obj
                               [("success", J.bool false),
                                ("error", J.str ((errMsg2 r2.status).getD
                                  ("Request failed with status " ++ toString r2.status))),
                                ("status", J.num (r2.status : Int)),
                                ("responseData", responseData),
                                ("tip", J.str "Check that you are the current group owner and the target user is in the group")]⟩,
                             [out1, out2])

/-- Handler of `api/change-owner.js` (src/unnamed/part_000): caller supplies
the CSRF token; ids are only checked against `NaN`, not positivity. -/
def changeOwner0 (req : RawReq) (t : Nat → FetchOutcome) :
    LocalResponse × List Outbound :=
  if req.method ≠ "POST" then
    (⟨405, some "POST", J.obj [("error", J.str "Method not allowed")]⟩, [])
  else
    match req.raw with
    | none => (⟨400, none, J.obj [("error", J.str "No body sent")]⟩, [])
    | some rawBody =>
      if trimJS rawBody = "" then
        (⟨400, none, J.obj [("error", J.str "No body sent")]⟩, [])
      else
        match req.parsed with
        | none =>
          (⟨400, none, J.obj
             [("error", J.str "Invalid JSON"),
              ("details", J.str req.parseMsg)]⟩, [])
        | some f =>
          let cookie := stripQuotesJS (trimJS (fS f.cookie))
          let csrfTok := fS f.csrfToken
          if cookie = "" ∨ csrfTok = "" ∨ ¬ truthyS f.groupId ∨ ¬ truthyS f.targetId then
            (⟨400, none, J.obj
               [("error", J.str "Missing required fields"),
                ("got", J.obj
                  [("cookie", J.bool (cookie ≠ "")),
                   ("csrfToken", J.str csrfTok),
                   ("groupId", jOptStr f.groupId),
                   ("targetId", jOptStr f.targetId)])]⟩, [])
          else
            match parseIntJS (fS f.groupId), parseIntJS (fS f.targetId) with
            | none, _ =>
              (⟨400, none, J.obj
                 [("error", J.str "groupId and targetId must be numbers")]⟩, [])
            | some _, none =>
              (⟨400, none, J.obj
                 [("error", J.str "groupId and targetId must be numbers")]⟩, [])
            | some g, some _ =>
              let out : Outbound :=
                ⟨changeOwnerUrl g, ".ROBLOSECURITY=" ++ cookie, some (trimJS csrfTok)⟩
              match t 0 with
              | FetchOutcome.thrown m =>
                (⟨500, none, J.obj
                   [("error", J.str "Internal server error"),
                    ("message", J.str m)]⟩, [out])
              | FetchOutcome.resp r =>
                let data := (r.bodyJson).getD (J.obj [])
                if !okStatus r.status then
                  if r.status = 401 then
                    (⟨401, none, J.obj
                       [("error", J.str "Invalid or expired .ROBLOSECURITY cookie"),
                        ("tip", J.str "Log in again on roblox.com and copy a fresh cookie"),
                        ("roblox", data)]⟩, [out])
                  else if r.status = 403 then
                    (⟨403, none, J.obj
                       [("error", J.str "Invalid X-CSRF-TOKEN"),
                        ("tip", J.str "Get a fresh token by doing a dummy POST (e.g. to /logout) with the cookie first"),
                        ("roblox", data)]⟩, [out])
                  else
                    (⟨r.status, none, J.obj
                       [("error", J.str "Roblox rejected the request"),
                        ("status", J.num (r.status : Int)),
                        ("roblox", data)]⟩, [out])
                else
                  (⟨200, none, J.obj
                     [("success", J.bool true),
                      ("message", J.str "Group ownership transferred!"),
                      ("roblox", data)]⟩, [out])

/-- Handler of `api/change-owner.js` (src/unnamed/part_005): caller supplies
the CSRF token; ids are only checked against `NaN`; the upstream status of a
failed mutation is relayed verbatim. -/
def changeOwner5 (req : RawReq) (t : Nat → FetchOutcome) :
    LocalResponse × List Outbound :=
  if req.method ≠ "POST" then
    (⟨405, some "POST", J.obj [("error", J.str "Method not allowed")]⟩, [])
  else
    match req.raw with
    | none =>
      (⟨400, none, J.obj
         [("error", J.str "Invalid JSON in request body"),
          ("details", J.str req.parseMsg)]⟩, [])
    | some rawBody =>
      if rawBody = "" ∨ trimJS rawBody = "" then
        (⟨400, none, J.obj [("error", J.str "Empty request body")]⟩, [])
      else
        match req.parsed with
        | none =>
          (⟨400, none, J.obj
             [("error", J.str "Invalid JSON in request body"),
              ("details", J.str req.parseMsg)]⟩, [])
        | some f =>
          if !truthyS f.cookie || !truthyS f.csrfToken ||
             !truthyS f.groupId || !truthyS f.targetId then
            (⟨400, none, J.obj
               [("error", J.str "Missing required parameters"),
                ("required", J.arr [J.str "cookie", J.str "csrfToken",
                  J.str "groupId", J.str "targetId"])]⟩, [])
          else
            match parseIntJS (fS f.groupId), parseIntJS (fS f.targetId) with
            | none, _ =>
              (⟨400, none, J.obj
                 [("error", J.str "groupId and targetId must be valid numbers")]⟩, [])
            | some _, none =>
              (⟨400, none, J.obj
                 [("error", J.str "groupId and targetId must be valid numbers")]⟩, [])
            | some g, some _ =>
              let out : Outbound :=
                ⟨changeOwnerUrl g, ".ROBLOSECURITY=" ++ fS f.cookie,
                 some (fS f.csrfToken)⟩
              match t 0 with
              | FetchOutcome.thrown m =>
                (⟨500, none, J.obj
                   [("error", J.str "Internal server error"),
                    ("message", J.str (strOr m "Unknown error"))]⟩, [out])
              | FetchOutcome.resp r =>
                match r.bodyJson with
                | none =>
                  (⟨500, none, J.obj
                     [("error", J.str "Internal server error"),
                      ("message", J.str (strOr r.parseErrMsg "Unknown error"))]⟩,
                   [out])
                | some data =>
                  if !okStatus r.status then
                    (⟨r.status, none, J.obj
                       [("error", J.str "Roblox API error"),
                        ("roblox", data),
                        ("status", J.num (r.status : Int))]⟩, [out])
                  else
                    (⟨200, none, J.obj
                       [("success", J.bool true),
                        ("message", J.str "Ownership transferred successfully"),
                        ("data", data)]⟩, [out])

/-- Handler of `api/change-owner.js` (src/unnamed/part_004): platform body
parser; CSRF fetched from the authentication-ticket endpoint; a non-POST
method gets a 405 without an `Allow` header. -/
def changeOwner4 (req : SimpleReq) (t : Nat → FetchOutcome) :
    LocalResponse × List Outbound :=
  if req.method ≠ "POST" then
    (⟨405, none, J.obj [("error", J.str "Method not allowed")]⟩, [])
  else
    let f := req.body
    if !truthyS f.ownerId || !truthyS f.targetId ||
       !truthyS f.cookie || !truthyS f.groupId then
      (⟨400, none, J.obj
         [("error", J.str "Missing required parameters"),
          ("required", J.arr [J.str "ownerId", J.str "targetId",
            J.str "cookie", J.str "groupId"])]⟩, [])
    else
      let out1 : Outbound :=
        ⟨"https://auth.roblox.com/v1/authentication-ticket",
         ".ROBLOSECURITY=" ++ fS f.cookie, none⟩
      match t 0 with
      | FetchOutcome.thrown m =>
        (⟨500, none, J.obj
           [("error", J.str "Internal server error"),
            ("message", J.str m)]⟩, [out1])
      | FetchOutcome.resp r =>
        match r.csrfHeader with
        | none =>
          (⟨401, none, J.obj
             [("error", J.str "Failed to obtain CSRF token"),
              ("details", J.str "Invalid .ROBLOSECURITY cookie or authentication failed")]⟩,
           [out1])
        | some tok =>
          let out2 : Outbound :=
            ⟨"https://groups.roblox.com/v1/groups/" ++ fS f.groupId ++ "/change-owner",
             ".ROBLOSECURITY=" ++ fS f.cookie, some tok⟩
          match t 1 with
          | FetchOutcome.thrown m =>
            (⟨500, none, J.obj
               [("error", J.str "Internal server error"),
                ("message", J.str m)]⟩, [out1, out2])
          | FetchOutcome.resp r2 =>
            match r2.bodyJson with
            | none =>
              (⟨500, none, J.obj
                 [("error", J.str "Internal server error"),
                  ("message", J.str r2.parseErrMsg)]⟩, [out1, out2])
            | some data =>
              if !okStatus r2.status then
                (⟨r2.status, none, J.obj
                   [("error", J.str "Ownership transfer failed"),
                    ("details", data),
                    ("status", J.num (r2.status : Int))]⟩, [out1, out2])
              else
                (⟨200, none, J.obj
                   [("success", J.bool true),
                    ("message", J.str "Group ownership transferred successfully"),
                    ("data", data)]⟩, [out1, out2])

/-- First handler of `api/transfer.js` (lines 1-67): the single-file variant.
A non-2xx status on the CSRF fetch fails acquisition with a 401 before the
token header is ever consulted; a failed mutation relays the upstream status
verbatim; a non-POST method gets a 405 without an `Allow` header. -/
def transferSimple (req : SimpleReq) (t : Nat → FetchOutcome) :
    LocalResponse × List Outbound :=
  if req.method ≠ "POST" then
    (⟨405, none, J.obj [("error", J.str "POST only")]⟩, [])
  else
    let f := req.body
    if !truthyS f.groupId || !truthyS f.newOwnerId || !truthyS f.cookie then
      (⟨400, none, J.obj [("error", J.str "Need groupId, newOwnerId, cookie")]⟩, [])
    else
      let cleanCookie := stripRobloPrefix (fS f.cookie)
      let fullCookie := ".ROBLOSECURITY=" ++ cleanCookie
      let out1 : Outbound := ⟨"https://auth.roblox.com/v2/logout", fullCookie, none⟩
      match t 0 with
      | FetchOutcome.thrown m =>
        (⟨500, none, J.obj
           [("error", J.str "Server error"), ("details", J.str m)]⟩, [out1])
      | FetchOutcome.resp r =>
        if !okStatus r.status then
          (⟨401, none, J.obj
             [("error", J.str "Invalid cookie—CSRF fetch failed"),
              ("status", J.num (r.status : Int)),
              ("details", J.str r.bodyText)]⟩, [out1])
        else
          match r.csrfHeader with
          | none =>
            (⟨400, none, J.obj
               [("error", J.str "No CSRF token in headers—bad cookie?")]⟩, [out1])
          | some tok =>
            let out2 : Outbound :=
              ⟨"https://apis.roblox.com/groups/v1/groups/" ++ fS f.groupId ++
                 "/transfer-ownership", fullCookie, some tok⟩
            match t 1 with
            | FetchOutcome.thrown m =>
              (⟨500, none, J.obj
                 [("error", J.str "Server error"), ("details", J.str m)]⟩,
               [out1, out2])
            | FetchOutcome.resp r2 =>
              if !okStatus r2.status then
                (⟨r2.status, none, J.obj
                   [("error", J.str "Transfer failed"),
                    ("details", J.str r2.bodyText)]⟩, [out1, out2])
              else
                match r2.bodyJson with
                | none =>
                  (⟨500, none, J.obj
                     [("error", J.str "Server error"),
                      ("details", J.str r2.parseErrMsg)]⟩, [out1, out2])
                | some data =>
                  (⟨200, none, J.obj
                     [("success", J.bool true), ("data", data)]⟩, [out1, out2])

/-- Trace shifted past the first `k` fetches. -/
def shiftT (t : Nat → FetchOutcome) (k : Nat) : Nat → FetchOutcome :=
  fun n => t (n + k)

/-- Result of `getAuthenticatedUser`: user id (possibly `NaN`) and username,
or an error string. -/
inductive AuthRes where
  | ok (userId : Option Int) (username : String)
  | fail (error : String)
deriving BEq

/-- The account facts `checkAccountEligibility` reports. -/
structure Elig where
  userId : Option Int
  username : String
  accountAge : Int
  hasVerifiedEmail : Bool
  isPremium : Bool
deriving BEq

/-- Result of `checkAccountEligibility`. -/
inductive EligRes where
  | ok (e : Elig)
  | fail (error : String)
deriving BEq

/-- Result of `getGroupInfo`. -/
inductive GRes where
  | ok (data : J)
  | fail (error : String)
deriving BEq

/-- Result of the transfer helpers: success with the remote data, or an
error string together with the remote status code (0 when the call threw). -/
inductive TRes where
  | ok (data : J)
  | fail (error : String) (statusCode : Nat)
deriving BEq

/-- `getAuthenticatedUser` (transfer.js, lines 379-411): GET the
authenticated-user endpoint; on a 2xx response with truthy `id` and `name`
report them, otherwise report a diagnostic error string.  When the 2xx body
is read by `json()` and the guard fails, the second `text()` read finds the
body consumed and throws, so the catch reports that runtime message. -/
def getAuthenticatedUser (cookieToken : String) (t : Nat → FetchOutcome) :
    AuthRes × List Outbound :=
  let out : Outbound :=
    ⟨"https://users.roblox.com/v1/users/authenticated",
     ".ROBLOSECURITY=" ++ cookieToken, none⟩
  match t 0 with
  | FetchOutcome.thrown m => (AuthRes.fail m, [out])
  | FetchOutcome.resp r =>
    if okStatus r.status then
      match r.bodyJson with
      | none => (AuthRes.fail r.parseErrMsg, [out])
      | some u =>
        if truthyJ u && truthyO (jGet u "id") && truthyO (jGet u "name") then
          (AuthRes.ok (jParseInt (jGet u "id")) (jStrD (jGet u "name")), [out])
        else
          (AuthRes.fail bodyUsedMsg, [out])
    else
      (AuthRes.fail ("HTTP " ++ toString r.status ++ ": " ++
        strOr r.bodyText "Unknown error"), [out])

/-- `checkAccountEligibility` (transfer.js, lines 414-461): authenticate,
then best-effort fetch of account details; any failure of the second call
falls back to the basic data (age `-1`, flags false).  `ageOf` abstracts the
`Math.floor((now - new Date(created)) / 86400000)` computation. -/
def checkAccountEligibility (ageOf : String → Int) (cookieToken : String)
    (t : Nat → FetchOutcome) : EligRes × List Outbound :=
  let a := getAuthenticatedUser cookieToken t
  match a.1 with
  | AuthRes.fail e => (EligRes.fail e, a.2)
  | AuthRes.ok uid uname =>
    let out2 : Outbound :=
      ⟨"https://users.roblox.com/v1/users/" ++ jsIntStr uid,
       ".ROBLOSECURITY=" ++ cookieToken, none⟩
    let basic : Elig := ⟨uid, uname, -1, false, false⟩
    match t 1 with
    | FetchOutcome.thrown _ => (EligRes.ok basic, a.2 ++ [out2])
    | FetchOutcome.resp r =>
      if okStatus r.status then
        match r.bodyJson with
        | none => (EligRes.ok basic, a.2 ++ [out2])
        | some u =>
          let accountAge :=
            match jGet u "created" with
            | some cr => if truthyJ cr then ageOf (jStrD cr) else -1
            | none => -1
          (EligRes.ok ⟨uid, uname, accountAge,
             truthyO (jGet u "hasVerifiedEmail"),
             truthyO (jGet u "isPremium")⟩, a.2 ++ [out2])
      else
        (EligRes.ok basic, a.2 ++ [out2])

/-- `getGroupInfo` (transfer.js, lines 464-490). -/
def getGroupInfo (groupId : Int) (cookieToken : String)
    (t : Nat → FetchOutcome) : GRes × List Outbound :=
  let out : Outbound :=
    ⟨"https://groups.roblox.com/v1/groups/" ++ toString groupId,
     ".ROBLOSECURITY=" ++ cookieToken, none⟩
  match t 0 with
  | FetchOutcome.thrown m => (GRes.fail m, [out])
  | FetchOutcome.resp r =>
    if okStatus r.status then
      match r.bodyJson with
      | none => (GRes.fail r.parseErrMsg, [out])
      | some d => (GRes.ok d, [out])
    else
      (GRes.fail ("HTTP " ++ toString r.status ++ ": " ++
        strOr r.bodyText "Unknown error"), [out])

/-- The refined challenge message of `transferGroupOwnership`. -/
def challengeRequiredMsg : String :=
  "Challenge Required - This account needs 2FA verification or email confirmation to transfer group ownership. This cannot be bypassed programmatically."

/-- Error extraction of `transferGroupOwnership` on a non-2xx response whose
body parsed: `errors[0].message` when present and truthy, else `message`,
else the placeholder. -/
def extractRobloxErr (ed : J) : String :=
  let fromErrors :=
    match jGet ed "errors" with
    | some (J.arr (h :: _)) =>
      if truthyJ h then
        match jGet h "message" with
        | some v => if truthyJ v then some (jStrD v) else none
        | none => none
      else none
    | _ => none
  match fromErrors with
  | some m => m
  | none =>
    match jGet ed "message" with
    | some v => if truthyJ v then jStrD v else "Unknown error"
    | none => "Unknown error"

/-- `transferGroupOwnership` (transfer.js, lines 493-563): the primary
change-owner call.  On a non-2xx response the error message is extracted
from the JSON body (an unparseable body leaves the placeholder, because the
follow-up `text()` read finds the body consumed and yields `""`), then
rewritten for the well-known status codes; the result carries the upstream
status code. -/
def transferGroupOwnership (groupId newOwnerId : Int)
    (cookieToken csrfToken : String) (t : Nat → FetchOutcome) :
    TRes × List Outbound :=
  let out : Outbound :=
    ⟨changeOwnerUrl groupId, ".ROBLOSECURITY=" ++ cookieToken, some csrfToken⟩
  match t 0 with
  | FetchOutcome.thrown m => (TRes.fail m 0, [out])
  | FetchOutcome.resp r =>
    if okStatus r.status then
      (TRes.ok ((r.bodyJson).getD (J.obj [])), [out])
    else
      let sc := r.status
      let em0 :=
        match r.bodyJson with
        | some ed => extractRobloxErr ed
        | none => "Unknown error"
      let em :=
        if sc = 401 then "Unauthorized - Invalid authentication cookie"
        else if sc = 403 then
          if strIncludes em0 "Challenge" then challengeRequiredMsg
          else if strIncludes em0 "CSRF" then
            "CSRF Token Invalid - Authentication token verification failed"
          else if em0 = "" ∨ em0 = "Unknown error" then
            "Forbidden - Insufficient permissions"
          else em0
        else if sc = 404 then
          "Not Found - Group does not exist or user cannot access it"
        else if sc = 429 then
          "Rate Limited - Too many requests, please wait before trying again"
        else em0
      (TRes.fail ("HTTP " ++ toString sc ++ ": " ++ em) sc, [out])

/-- `transferGroupOwnershipAlternative` (transfer.js, lines 566-602): the
speculative v2 membership PATCH, tried once. -/
def transferGroupOwnershipAlternative (groupId newOwnerId : Int)
    (cookieToken csrfToken : String) (t : Nat → FetchOutcome) :
    TRes × List Outbound :=
  let out : Outbound :=
    ⟨"https://groups.roblox.com/v2/groups/" ++ toString groupId ++
       "/membership/users/" ++ toString newOwnerId,
     ".ROBLOSECURITY=" ++ cookieToken, some csrfToken⟩
  match t 0 with
  | FetchOutcome.thrown m => (TRes.fail m 0, [out])
  | FetchOutcome.resp r =>
    if okStatus r.status || r.status == 204 then
      (TRes.ok (J.obj []), [out])
    else
      (TRes.fail "Alternative method failed" r.status, [out])

/-- The guidance block appended to challenge failures (transfer.js,
lines 285-291). -/
def challengeGuidance : String :=
  "\n\n📝 SOLUTIONS TO TRY:\n1. Wait 30+ days after account creation\n2. Verify email address in Roblox settings\n3. Add Robux to the account (even 5-10 Robux helps)\n4. Use the account actively for a few days\n5. Try the transfer through Roblox website first\n6. Contact Roblox Support if account is flagged"

/-- Steps 3-5 of the comprehensive handler (transfer.js, lines 191-299):
group lookup and ownership verification, token acquisition via the fallback
chain, the mutation with its optional challenge fallback, and the final
response translation (statusCode `>= 500` becomes a local 502, a thrown
mutation's code 0 becomes 400). -/
def hbSteps35 (g u : Int) (eg : Elig) (warnings : List String)
    (cookieToken nowISO : String) (groupName : String → J)
    (t : Nat → FetchOutcome) : LocalResponse × List Outbound :=
  let gr := getGroupInfo g cookieToken t
  match gr.1 with
  | GRes.fail e =>
    (⟨400, none, J.obj
       [("success", J.bool false),
        ("error", J.str ("Failed to get group info: " ++ e))]⟩, gr.2)
  | GRes.ok gd =>
    let ownerUid :=
      match jGet gd "owner" with
      | some ow => jGet ow "userId"
      | none => none
    if !truthyJ gd || !truthyO (jGet gd "owner") || !truthyO ownerUid then
      (⟨400, none, J.obj
         [("success", J.bool false),
          ("error", J.str "Group has no owner or group data is invalid")]⟩, gr.2)
    else
      match jParseInt ownerUid with
      | none =>
        (⟨400, none, J.obj
           [("success", J.bool false),
            ("error", J.str "Invalid owner ID in group data")]⟩, gr.2)
      | some cur =>
        if !eqNum (some cur) eg.userId then
          (⟨403, none, J.obj
             [("success", J.bool false),
              ("error", J.str ("Player " ++ jsIntStr eg.userId ++
                " is not the owner of group " ++ toString g ++
                " (current owner: " ++ toString cur ++ ")")),
              ("currentOwner", J.num cur)]⟩, gr.2)
        else
          let cs := getCSRFToken cookieToken (shiftT t gr.2.length)
          match cs.1 with
          | CSRFRes.failure e =>
            (⟨400, none, J.obj
               [("success", J.bool false),
                ("error", J.str ("Failed to get CSRF token: " ++ e))]⟩,
             gr.2 ++ cs.2)
          | CSRFRes.success tok =>
            let tr1 := transferGroupOwnership g u cookieToken tok
              (shiftT t (gr.2.length + cs.2.length))
            let successResp : LocalResponse :=
              ⟨200, none, J.obj
                ([("success", J.bool true),
                  ("message", J.str "Ownership transferred successfully"),
                  ("previousOwner", jNum eg.userId),
                  ("newOwner", J.num u),
                  ("groupId", J.num g),
                  ("groupName", groupName (jStrD (jGet gd "name"))),
                  ("transferredAt", J.str nowISO)] ++
                 (if warnings ≠ [] then
                    [("warnings", J.arr (warnings.map J.str))] else []))⟩
            let failResp : String → Nat → LocalResponse := fun err sc =>
              ⟨(if sc ≥ 500 then 502 else if sc = 0 then 400 else sc), none,
               J.obj
                 [("success", J.bool false),
                  ("error", J.str ("Transfer failed: " ++ err ++
                    (if strIncludes err "Challenge" then challengeGuidance else ""))),
                  ("statusCode", J.num (sc : Int))]⟩
            match tr1.1 with
            | TRes.ok _ => (successResp, gr.2 ++ cs.2 ++ tr1.2)
            | TRes.fail err sc =>
              if sc = 403 && strIncludes err "Challenge" then
                let tr2 := transferGroupOwnershipAlternative g u cookieToken tok
                  (shiftT t (gr.2.length + cs.2.length + tr1.2.length))
                match tr2.1 with
                | TRes.ok _ => (successResp, gr.2 ++ cs.2 ++ tr1.2 ++ tr2.2)
                | TRes.fail err2 sc2 =>
                  (failResp err2 sc2, gr.2 ++ cs.2 ++ tr1.2 ++ tr2.2)
              else
                (failResp err sc, gr.2 ++ cs.2 ++ tr1.2)

/-- Second handler of `api/transfer.js` (lines 70-309): the comprehensive
change-group-owner variant.  `groupName` abstracts the
`groupData.name || "Unknown"` rendering (applied to the name's string
content). -/
def changeGroupOwnerFull (req : RawReq) (ageOf : String → Int)
    (nowISO : String) (t : Nat → FetchOutcome) :
    LocalResponse × List Outbound :=
  if req.method ≠ "POST" then
    (⟨405, some "POST", J.obj [("error", J.str "Method not allowed")]⟩, [])
  else
    match req.raw with
    | none =>
      (⟨400, none, J.obj [("error", J.str "Failed to read request body")]⟩, [])
    | some rawBody =>
      match (if rawBody = "" then some {} else req.parsed) with
      | none =>
        (⟨400, none,
          J.obj [("error", J.str "Invalid JSON in request body")]⟩, [])
      | some f =>
        if !truthyS f.groupId || !truthyS f.userId || !truthyS f.cookie then
          let missing :=
            (if !truthyS f.groupId then ["groupId"] else []) ++
            (if !truthyS f.userId then ["userId"] else []) ++
            (if !truthyS f.cookie then ["cookie"] else [])
          (⟨400, none, J.obj
             [("success", J.bool false),
              ("error", J.str ("Missing required parameters: " ++
                String.intercalate ", " missing))]⟩, [])
        else
          match parseIntJS (fS f.groupId) with
          | none =>
            (⟨400, none, J.obj
               [("success", J.bool false),
                ("error", J.str "Invalid groupId: must be a positive number")]⟩, [])
          | some g =>
            if g ≤ 0 then
              (⟨400, none, J.obj
                 [("success", J.bool false),
                  ("error", J.str "Invalid groupId: must be a positive number")]⟩, [])
            else
              match parseIntJS (fS f.userId) with
              | none =>
                (⟨400, none, J.obj
                   [("success", J.bool false),
                    ("error", J.str "Invalid newOwnerId: must be a positive number")]⟩, [])
              | some u =>
                if u ≤ 0 then
                  (⟨400, none, J.obj
                     [("success", J.bool false),
                      ("error", J.str "Invalid newOwnerId: must be a positive number")]⟩, [])
                else
                  let pid : Option (Option Int) :=
                    if truthyS f.playerId then some (parseIntJS (fS f.playerId))
                    else none
                  let cookieToken := stripRobloPrefix (trimJS (fS f.cookie))
                  if cookieToken = "" ∨ cookieToken.length < 10 then
                    (⟨400, none, J.obj
                       [("success", J.bool false),
                        ("error", J.str "Invalid cookie: empty after cleaning")]⟩, [])
                  else
                    let el := checkAccountEligibility ageOf cookieToken t
                    match el.1 with
                    | EligRes.fail e =>
                      (⟨400, none, J.obj
                         [("success", J.bool false),
                          ("error", J.str ("Eligibility check failed: " ++ e))]⟩,
                       el.2)
                    | EligRes.ok eg =>
                      let warnings :=
                        (if 0 ≤ eg.accountAge ∧ eg.accountAge < 30 then
                          ["Account is less than 30 days old - may face additional restrictions"]
                         else []) ++
                        (if !eg.hasVerifiedEmail then
                          ["Email not verified - may cause transfer restrictions"]
                         else [])
                      let cont := hbSteps35 g u eg warnings cookieToken nowISO
                        (fun s => J.str (strOr s "Unknown"))
                        (shiftT t el.2.length)
                      match pid with
                      | some pv =>
                        if eqNum eg.userId pv then (cont.1, el.2 ++ cont.2)
                        else
                          (⟨403, none, J.obj
                             [("success", J.bool false),
                              ("error", J.str ("User ID mismatch: expected " ++
                                jsIntStr pv ++ ", got " ++ jsIntStr eg.userId))]⟩,
                           el.2)
                      | none => (cont.1, el.2 ++ cont.2)

/-- A token is visible within `n` attempts from `i` exactly when some
attempt in that window carries one. -/
theorem scanTok_isSome (t : Nat → FetchOutcome) :
    ∀ (n i : Nat), (scanTok t i n).isSome = true ↔
      ∃ k, k < n ∧ (attemptToken (t (i + k))).isSome = true := by
  intro n
  induction n with
  | zero => intro i; simp [scanTok]
  | succ n ih =>
    intro i
    cases h : attemptToken (t i) with
    | some tok =>
      simp only [scanTok, h, Option.orElse, Option.isSome]
      constructor
      · intro _; exact ⟨0, by omega, by simp [h]⟩
      · intro _; trivial
    | none =>
      simp only [scanTok, h, Option.orElse]
      rw [ih (i + 1)]
      constructor
      · rintro ⟨k, hk, hsome⟩
        exact ⟨k + 1, by omega, by have : i + 1 + k = i + (k + 1) := by omega
                                   rw [this] at hsome; exact hsome⟩
      · rintro ⟨k, hk, hsome⟩
        cases k with
        | zero => rw [Nat.add_zero] at hsome; rw [h] at hsome; cases hsome
        | succ k =>
          exact ⟨k, by omega, by have : i + 1 + k = i + (k + 1) := by omega
                                 rw [this]; exact hsome⟩

/-- Concrete request for the C1 counterexample: a well-formed transfer
request to the single-file handler. -/
def reqC1 : SimpleReq :=
  ⟨"POST", { cookie := some "CAEaAhAD1234567890",
             groupId := some "123", newOwnerId := some "456" }⟩

/-- Concrete trace for the C1 counterexample: the CSRF fetch answers 403
with the token present in the headers (the normal way Roblox hands out the
token). -/
def trC1 : Nat → FetchOutcome :=
  fun _ => FetchOutcome.resp ⟨403, some "TOK", "Token Validation Failed",
    some (J.obj []), ""⟩

/-- C1, counterexample: in the single-file transfer handler the response to
the token fetch carries the token in its headers, yet acquisition fails
(401, no second call), because the handler tests `response.ok` before ever
consulting the header -- so token presence is not the only success signal
there. -/
theorem c1_counterexample :
    (∃ r, trC1 0 = FetchOutcome.resp r ∧ r.csrfHeader = some "TOK") ∧
    (transferSimple reqC1 trC1).1.status = 401 ∧
    (transferSimple reqC1 trC1).2.length = 1 := by
  refine ⟨⟨_, rfl, rfl⟩, ?_, ?_⟩ <;> rfl

/-- C1, amended: in the fallback-chain acquirer `getCSRFToken` token-header
presence is the only success signal -- acquisition succeeds exactly when one
of the four attempts yields a response carrying the token header, regardless
of every status code and body (a); likewise in the get-csrf handler, where a
single response's token-header presence alone decides between 200 and 400
(b); but in the single-file transfer handler acquisition additionally
requires a 2xx status: the mutation is reached exactly when the CSRF
response is both 2xx and carries the token header (c). -/
theorem c1_amended :
    (∀ (c : String) (t : Nat → FetchOutcome),
       (∃ tok, (getCSRFToken c t).1 = CSRFRes.success tok) ↔
       (∃ i, i < 4 ∧ (attemptToken (t i)).isSome = true)) ∧
    (∀ (rawBody : String) (f : Fields) (pm : String) (t : Nat → FetchOutcome)
       (r : RemoteResponse),
       trimJS rawBody ≠ "" →
       stripQuotesJS (trimJS (fS f.cookie)) ≠ "" →
       t 0 = FetchOutcome.resp r →
       ((getCsrf3 ⟨"POST", some rawBody, some f, pm⟩ t).1.status = 200 ↔
        r.csrfHeader.isSome = true)) ∧
    (∀ (f : Fields) (t : Nat → FetchOutcome) (r : RemoteResponse),
       truthyS f.groupId = true → truthyS f.newOwnerId = true →
       truthyS f.cookie = true →
       t 0 = FetchOutcome.resp r →
       ((transferSimple ⟨"POST", f⟩ t).2.length = 2 ↔
        (okStatus r.status = true ∧ r.csrfHeader.isSome = true))) := by
  refine ⟨?_, ?_, ?_⟩
  · intro c t
    rw [show (∃ i, i < 4 ∧ (attemptToken (t i)).isSome = true) ↔
          (scanTok t 0 4).isSome = true by
        rw [scanTok_isSome t 4 0]; simp]
    have h := getCSRFToken_result c t
    cases hscan : scanTok t 0 4 with
    | some tok => rw [hscan] at h; simp [h]
    | none => rw [hscan] at h; simp [h]
  · intro rawBody f pm t r htrim hcookie ht
    cases hh : r.csrfHeader <;>
      simp [getCsrf3, htrim, hcookie, ht, hh]
  · intro f t r hg hn hc ht
    cases hok : okStatus r.status with
    | false => simp [transferSimple, hg, hn, hc, ht, hok]
    | true =>
      cases hh : r.csrfHeader with
      | none => simp [transferSimple, hg, hn, hc, ht, hok, hh]
      | some tok =>
        cases ht1 : t 1 with
        | resp r2 =>
          cases hok2 : okStatus r2.status with
          | false => simp [transferSimple, hg, hn, hc, ht, hok, hh, ht1, hok2]
          | true =>
            cases hj : r2.bodyJson <;>
              simp [transferSimple, hg, hn, hc, ht, hok, hh, ht1, hok2, hj]
        | thrown m => simp [transferSimple, hg, hn, hc, ht, hok, hh, ht1]

/-- Concrete sample inputs for the C1 witness. -/
def reqBody1 : Fields := { cookie := some "CAEaAhAD1234567890" }

/-- Concrete transfer payload for the C1 witness. -/
def reqBody1W : Fields :=
  { cookie := some "CAEaAhAD1234567890",
    groupId := some "1", newOwnerId := some "2" }

/-- Trace whose first response carries the token with a 403 status. -/
def trTok403 : Nat → FetchOutcome :=
  fun _ => FetchOutcome.resp ⟨403, some "TOKEN1", "", some (J.obj []), ""⟩

/-- C1 witness: the amended theorem applied at concrete inputs. -/
theorem c1_witness :
    ((∃ tok, (getCSRFToken "CAEaAhAD1234567890" trTok403).1 =
        CSRFRes.success tok) ↔
      (∃ i, i < 4 ∧ (attemptToken (trTok403 i)).isSome = true)) ∧
    ((getCsrf3 ⟨"POST", some "\x7b\x7d", some reqBody1, ""⟩ trTok403).1.status = 200 ↔
      (⟨403, some "TOKEN1", "", some (J.obj []), ""⟩ : RemoteResponse).csrfHeader.isSome = true) ∧
    ((transferSimple ⟨"POST", reqBody1W⟩ trTok403).2.length = 2 ↔
      (okStatus 403 = true ∧
       (⟨403, some "TOKEN1", "", some (J.obj []), ""⟩ : RemoteResponse).csrfHeader.isSome = true)) :=
  ⟨c1_amended.1 "CAEaAhAD1234567890" trTok403,
   c1_amended.2.1 "\x7b\x7d" reqBody1 "" trTok403 _ (by decide) (by decide) rfl,
   c1_amended.2.2 _ trTok403 _ (by decide) (by decide) (by decide) rfl⟩

/-- Exhausted trace A: every attempt answers token-less with status 500. -/
def trNoTokA : Nat → FetchOutcome :=
  fun _ => FetchOutcome.resp ⟨500, none, "upstream exploded AAA", none, "pe"⟩

/-- Exhausted trace B: every attempt answers token-less with status 418 and
a different body. -/
def trNoTokB : Nat → FetchOutcome :=
  fun _ => FetchOutcome.resp ⟨418, none, "BBB", some (J.obj []), ""⟩

/-- C2, counterexample: two exhausted runs of the fallback-chain acquirer
whose last responses have different status codes (500 vs 418) and different
bodies produce the identical constant failure -- the TokenUnavailable result
of `getCSRFToken` carries neither the last-seen status code nor a body
snippet. -/
theorem c2_counterexample :
    trNoTokA 3 = FetchOutcome.resp ⟨500, none, "upstream exploded AAA", none, "pe"⟩ ∧
    trNoTokB 3 = FetchOutcome.resp ⟨418, none, "BBB", some (J.obj []), ""⟩ ∧
    (getCSRFToken "CAEaAhAD1234567890" trNoTokA).1 =
      CSRFRes.failure csrfExhaustedMsg ∧
    (getCSRFToken "CAEaAhAD1234567890" trNoTokB).1 =
      CSRFRes.failure csrfExhaustedMsg ∧
    (getCSRFToken "CAEaAhAD1234567890" trNoTokA).1 =
      (getCSRFToken "CAEaAhAD1234567890" trNoTokB).1 :=
  ⟨rfl, rfl, rfl, rfl, rfl⟩

/-- The cleaned cookie of a payload, as the CA-checking handlers compute
it. -/
def cleanCA (f : Fields) : String := stripRobloPrefix (trimJS (fS f.cookie))

/-- The cookie-validation condition of the CA-checking handlers
(part_001, part_002): empty, too short, or not starting with `CA`. -/
def badCACookie (f : Fields) : Prop :=
  cleanCA f = "" ∨ (cleanCA f).length < 10 ∨ ¬ startsWithJS (cleanCA f) "CA"

instance (f : Fields) : Decidable (badCACookie f) := by
  unfold badCACookie; infer_instance

/-- C2, amended: when every endpoint of the fallback chain is exhausted
without a token, `getCSRFToken` fails with the one fixed TokenUnavailable
message, carrying no status code and no body snippet (a); the
single-endpoint change-group-owner variant, by contrast, does return a 400
carrying the last response's status code and a 200-character body snippet
when its only token fetch yields no token (b). -/
theorem c2_amended :
    (∀ (c : String) (t : Nat → FetchOutcome),
       (attemptToken (t 0) = none) → (attemptToken (t 1) = none) →
       (attemptToken (t 2) = none) → (attemptToken (t 3) = none) →
       (getCSRFToken c t).1 = CSRFRes.failure csrfExhaustedMsg) ∧
    (∀ (rawBody : String) (f : Fields) (pm nowISO : String)
       (t : Nat → FetchOutcome) (r : RemoteResponse) (g u : Int),
       rawBody ≠ "" →
       truthyS f.groupId = true → truthyS f.userId = true →
       parseIntJS (fS f.groupId) = some g → 0 < g →
       parseIntJS (fS f.userId) = some u → 0 < u →
       ¬ badCACookie f →
       t 0 = FetchOutcome.resp r → r.csrfHeader = none →
       (changeGroupOwner2 ⟨"POST", some rawBody, some f, pm⟩ nowISO t).1 =
         ⟨400, none, J.obj
           [("success", J.bool false),
            ("error", J.str "Failed to obtain CSRF token from Roblox"),
            ("tip", J.str "Your cookie may be expired or invalid. Make sure you\x27re using a valid .ROBLOSECURITY cookie."),
            ("status", J.num (r.status : Int)),
            ("details", J.str (takeJS r.bodyText 200))]⟩) := by
  constructor
  · intro c t h0 h1 h2 h3
    rw [getCSRFToken_result]
    simp [scanTok, h0, h1, h2, h3, Option.orElse]
  · intro rawBody f pm nowISO t r g u hraw htg htu hpg hgpos hpu hupos hck ht hh
    unfold badCACookie cleanCA at hck
    push_neg at hck
    obtain ⟨hc1, hc2, hc3⟩ := hck
    have hg2 : ¬ (g ≤ 0) := by omega
    have hu2 : ¬ (u ≤ 0) := by omega
    have hlen : ¬ ((stripRobloPrefix (trimJS (fS f.cookie))).length < 10) := by
      omega
    simp [changeGroupOwner2, if_neg hraw, htg, htu, hpg, hpu, hg2, hu2,
      hc1, hlen, hc3, ht, hh]

/-- Concrete payload for the C2 witness. -/
def fieldsC2 : Fields :=
  { cookie := some "CAEaAhAD1234567890",
    groupId := some "7", userId := some "8" }

/-- Concrete token-less 403 response for the C2 witness. -/
def rC2 : RemoteResponse := ⟨403, none, "Token Validation Failed xyz", none, "pe"⟩

/-- Trace answering `rC2` to every call. -/
def trC2 : Nat → FetchOutcome := fun _ => FetchOutcome.resp rC2

/-- C2 witness: the amended theorem applied at concrete inputs. -/
theorem c2_witness :
    (getCSRFToken "CAEaAhAD1234567890" trNoTokA).1 =
      CSRFRes.failure csrfExhaustedMsg ∧
    (changeGroupOwner2 ⟨"POST", some "x", some fieldsC2, ""⟩ "now" trC2).1 =
      ⟨400, none, J.obj
        [("success", J.bool false),
         ("error", J.str "Failed to obtain CSRF token from Roblox"),
         ("tip", J.str "Your cookie may be expired or invalid. Make sure you\x27re using a valid .ROBLOSECURITY cookie."),
         ("status", J.num ((403 : Nat) : Int)),
         ("details", J.str (takeJS rC2.bodyText 200))]⟩ :=
  ⟨c2_amended.1 "CAEaAhAD1234567890" trNoTokA rfl rfl rfl rfl,
   c2_amended.2 "x" fieldsC2 "" "now" trC2 rC2 7 8 (by decide) (by decide)
     (by decide) (by decide) (by decide) (by decide) (by decide) (by decide)
     rfl rfl⟩

/-- Trace for the C3 counterexample: the primary attempt answers 401 (the
auth-rejecting status) without a token; the first fallback answers with a
token. -/
def trC3 : Nat → FetchOutcome :=
  fun n =>
    if n = 0 then FetchOutcome.resp ⟨401, none, "Unauthorized", some (J.obj []), ""⟩
    else FetchOutcome.resp ⟨403, some "T2", "", some (J.obj []), ""⟩

/-- C3, counterexample: after a token-less 401 from the primary endpoint the
acquirer does not fail fast -- it advances to the fallback endpoint, makes a
second call, and succeeds with that endpoint's token; there is no
InvalidCredential result. -/
theorem c3_counterexample :
    trC3 0 = FetchOutcome.resp ⟨401, none, "Unauthorized", some (J.obj []), ""⟩ ∧
    (getCSRFToken "CAEaAhAD1234567890" trC3).1 = CSRFRes.success "T2" ∧
    (getCSRFToken "CAEaAhAD1234567890" trC3).2.length = 2 :=
  ⟨rfl, rfl, rfl⟩

/-- Pointwise trace update at index `i`. -/
def updT (t : Nat → FetchOutcome) (i : Nat) (v : FetchOutcome) :
    Nat → FetchOutcome :=
  fun n => if n = i then v else t n

/-- `scanTok` only reads the per-attempt token view. -/
theorem scanTok_congr (t1 t2 : Nat → FetchOutcome)
    (h : ∀ n, attemptToken (t1 n) = attemptToken (t2 n)) :
    ∀ (k i : Nat), scanTok t1 i k = scanTok t2 i k := by
  intro k
  induction k with
  | zero => intro i; rfl
  | succ k ih => intro i; simp [scanTok, h i, ih (i + 1)]

/-- C3, amended: the fallback-chain acquirer never inspects status codes.
Replacing any single token-less response in the trace by a token-less
response with any other status (for instance swapping an auth-specific 401
for a 500) leaves the acquisition result unchanged: there is no
InvalidCredential fast-fail, and a credential-rejecting status still
advances to the next fallback endpoint. -/
theorem c3_amended :
    ∀ (c : String) (t : Nat → FetchOutcome) (i : Nat) (r r' : RemoteResponse),
      r.csrfHeader = none → r'.csrfHeader = none →
      (getCSRFToken c (updT t i (FetchOutcome.resp r))).1 =
      (getCSRFToken c (updT t i (FetchOutcome.resp r'))).1 := by
  intro c t i r r' hr hr'
  rw [getCSRFToken_result, getCSRFToken_result]
  rw [scanTok_congr (updT t i (FetchOutcome.resp r))
    (updT t i (FetchOutcome.resp r'))
    (by intro n
        unfold updT
        by_cases hn : n = i <;> simp [hn, attemptToken, hr, hr']) 4 0]

/-- C3 witness: the amended theorem applied at a concrete trace, swapping a
token-less 401 for a token-less 500 at the primary attempt. -/
theorem c3_witness :
    (getCSRFToken "CAEaAhAD1234567890"
       (updT trNoTokB 0 (FetchOutcome.resp ⟨401, none, "denied", none, ""⟩))).1 =
    (getCSRFToken "CAEaAhAD1234567890"
       (updT trNoTokB 0 (FetchOutcome.resp ⟨500, none, "boom", none, ""⟩))).1 :=
  c3_amended "CAEaAhAD1234567890" trNoTokB 0 _ _ rfl rfl

/-- C10: an exception thrown by the network call of any single attempt of
the fallback-chain acquirer is caught and acquisition proceeds exactly as it
would past any token-less response: (a) replacing any attempt's thrown
outcome by a token-less response (or vice versa) leaves the acquisition
result unchanged, so a thrown attempt never aborts the whole acquisition;
(b) in particular, when the primary attempt throws and the next endpoint's
response carries a token, acquisition succeeds with that token. -/
theorem c10_thrown_caught :
    (∀ (c : String) (t : Nat → FetchOutcome) (i : Nat) (m : String)
       (r : RemoteResponse),
       r.csrfHeader = none →
       (getCSRFToken c (updT t i (FetchOutcome.thrown m))).1 =
       (getCSRFToken c (updT t i (FetchOutcome.resp r))).1) ∧
    (∀ (c : String) (t : Nat → FetchOutcome) (m tok : String),
       t 0 = FetchOutcome.thrown m → attemptToken (t 1) = some tok →
       (getCSRFToken c t).1 = CSRFRes.success tok) := by
  constructor
  · intro c t i m r hr
    rw [getCSRFToken_result, getCSRFToken_result]
    rw [scanTok_congr (updT t i (FetchOutcome.thrown m))
      (updT t i (FetchOutcome.resp r))
      (by intro n
          unfold updT
          by_cases hn : n = i <;> simp [hn, attemptToken, hr]) 4 0]
  · intro c t m tok ht htok
    rw [getCSRFToken_result]
    have h0 : attemptToken (t 0) = none := by rw [ht]; rfl
    simp [scanTok, h0, htok, Option.orElse]

/-- Trace for the C10 witness: the primary attempt throws, the first
fallback answers with a token. -/
def trC10 : Nat → FetchOutcome :=
  fun n =>
    if n = 0 then FetchOutcome.thrown "ECONNRESET"
    else FetchOutcome.resp ⟨403, some "T3", "", some (J.obj []), ""⟩

/-- C10 witness: the theorem applied at concrete traces. -/
theorem c10_witness :
    ((getCSRFToken "CAEaAhAD1234567890"
        (updT trNoTokB 1 (FetchOutcome.thrown "ECONNRESET"))).1 =
     (getCSRFToken "CAEaAhAD1234567890"
        (updT trNoTokB 1 (FetchOutcome.resp ⟨418, none, "BBB", none, ""⟩))).1) ∧
    (getCSRFToken "CAEaAhAD1234567890" trC10).1 = CSRFRes.success "T3" :=
  ⟨c10_thrown_caught.1 "CAEaAhAD1234567890" trNoTokB 1 "ECONNRESET" _ rfl,
   c10_thrown_caught.2 "CAEaAhAD1234567890" trC10 "ECONNRESET" "T3" rfl rfl⟩

/-- Payload for the C4 counterexample: a negative target id. -/
def fieldsC4 : Fields :=
  { cookie := some "CAEaAhAD1234567890", csrfToken := some "TOK",
    groupId := some "1", targetId := some "-5" }

/-- Trace answering 200 with an empty JSON object. -/
def trOk200 : Nat → FetchOutcome :=
  fun _ => FetchOutcome.resp ⟨200, none, "\x7b\x7d", some (J.obj []), ""⟩

/-- C4, counterexample: in the change-owner variant a non-positive
`targetId` of `-5` passes validation (it parses to a number), the mutation
call is issued (one outbound call) and the handler answers 200 -- no 400
NumericValidation error is returned. -/
theorem c4_counterexample :
    parseIntJS "-5" = some (-5) ∧
    (changeOwner0 ⟨"POST", some "x", some fieldsC4, ""⟩ trOk200).1.status = 200 ∧
    (changeOwner0 ⟨"POST", some "x", some fieldsC4, ""⟩ trOk200).2.length = 1 := by
  refine ⟨by decide, rfl, rfl⟩

/-- C4, amended: the comprehensive transfer handler and the
change-group-owner variant reject a `groupId`/`userId` that fails to parse
or is non-positive with a 400 NumericValidation error and no outbound call
(a-d); the change-owner variants reject only ids that parse to `NaN` (e-f) --
a non-positive numeric id passes their validation and the mutation is
attempted, as the counterexample shows. -/
theorem c4_amended :
    (∀ (rawBody : String) (f : Fields) (pm nowISO : String)
       (ageOf : String → Int) (t : Nat → FetchOutcome),
       rawBody ≠ "" → truthyS f.groupId = true → truthyS f.userId = true →
       truthyS f.cookie = true →
       (∀ g, parseIntJS (fS f.groupId) = some g → g ≤ 0) →
       changeGroupOwnerFull ⟨"POST", some rawBody, some f, pm⟩ ageOf nowISO t =
         (⟨400, none, J.obj
            [("success", J.bool false),
             ("error", J.str "Invalid groupId: must be a positive number")]⟩, [])) ∧
    (∀ (rawBody : String) (f : Fields) (pm nowISO : String)
       (ageOf : String → Int) (t : Nat → FetchOutcome) (g : Int),
       rawBody ≠ "" → truthyS f.groupId = true → truthyS f.userId = true →
       truthyS f.cookie = true →
       parseIntJS (fS f.groupId) = some g → 0 < g →
       (∀ u, parseIntJS (fS f.userId) = some u → u ≤ 0) →
       changeGroupOwnerFull ⟨"POST", some rawBody, some f, pm⟩ ageOf nowISO t =
         (⟨400, none, J.obj
            [("success", J.bool false),
             ("error", J.str "Invalid newOwnerId: must be a positive number")]⟩, [])) ∧
    (∀ (rawBody : String) (f : Fields) (pm nowISO : String)
       (t : Nat → FetchOutcome),
       rawBody ≠ "" → truthyS f.groupId = true → truthyS f.userId = true →
       (∀ g, parseIntJS (fS f.groupId) = some g → g ≤ 0) →
       changeGroupOwner2 ⟨"POST", some rawBody, some f, pm⟩ nowISO t =
         (⟨400, none, J.obj
            [("success", J.bool false), ("error", J.str "Invalid groupId"),
             ("tip", J.str "groupId must be a positive number")]⟩, [])) ∧
    (∀ (rawBody : String) (f : Fields) (pm nowISO : String)
       (t : Nat → FetchOutcome) (g : Int),
       rawBody ≠ "" → truthyS f.groupId = true → truthyS f.userId = true →
       parseIntJS (fS f.groupId) = some g → 0 < g →
       (∀ u, parseIntJS (fS f.userId) = some u → u ≤ 0) →
       changeGroupOwner2 ⟨"POST", some rawBody, some f, pm⟩ nowISO t =
         (⟨400, none, J.obj
            [("success", J.bool false), ("error", J.str "Invalid userId"),
             ("tip", J.str "userId must be a positive number")]⟩, [])) ∧
    (∀ (rawBody : String) (f : Fields) (pm : String) (t : Nat → FetchOutcome),
       trimJS rawBody ≠ "" →
       stripQuotesJS (trimJS (fS f.cookie)) ≠ "" → fS f.csrfToken ≠ "" →
       truthyS f.groupId = true → truthyS f.targetId = true →
       (parseIntJS (fS f.groupId) = none ∨ parseIntJS (fS f.targetId) = none) →
       changeOwner0 ⟨"POST", some rawBody, some f, pm⟩ t =
         (⟨400, none, J.obj
            [("error", J.str "groupId and targetId must be numbers")]⟩, [])) ∧
    (∀ (rawBody : String) (f : Fields) (pm : String) (t : Nat → FetchOutcome),
       rawBody ≠ "" → trimJS rawBody ≠ "" →
       truthyS f.cookie = true → truthyS f.csrfToken = true →
       truthyS f.groupId = true → truthyS f.targetId = true →
       (parseIntJS (fS f.groupId) = none ∨ parseIntJS (fS f.targetId) = none) →
       changeOwner5 ⟨"POST", some rawBody, some f, pm⟩ t =
         (⟨400, none, J.obj
            [("error", J.str "groupId and targetId must be valid numbers")]⟩, [])) := by
  refine ⟨?_, ?_, ?_, ?_, ?_, ?_⟩
  · intro rawBody f pm nowISO ageOf t hraw htg htu htc hbad
    cases hpg : parseIntJS (fS f.groupId) with
    | none => simp [changeGroupOwnerFull, if_neg hraw, htg, htu, htc, hpg]
    | some g =>
      have := hbad g hpg
      simp [changeGroupOwnerFull, if_neg hraw, htg, htu, htc, hpg, this]
  · intro rawBody f pm nowISO ageOf t g hraw htg htu htc hpg hgpos hbad
    have hg2 : ¬ (g ≤ 0) := by omega
    cases hpu : parseIntJS (fS f.userId) with
    | none =>
      simp [changeGroupOwnerFull, if_neg hraw, htg, htu, htc, hpg, hg2, hpu]
    | some u =>
      have := hbad u hpu
      simp [changeGroupOwnerFull, if_neg hraw, htg, htu, htc, hpg, hg2, hpu, this]
  · intro rawBody f pm nowISO t hraw htg htu hbad
    cases hpg : parseIntJS (fS f.groupId) with
    | none => simp [changeGroupOwner2, if_neg hraw, htg, htu, hpg]
    | some g =>
      have := hbad g hpg
      simp [changeGroupOwner2, if_neg hraw, htg, htu, hpg, this]
  · intro rawBody f pm nowISO t g hraw htg htu hpg hgpos hbad
    have hg2 : ¬ (g ≤ 0) := by omega
    cases hpu : parseIntJS (fS f.userId) with
    | none => simp [changeGroupOwner2, if_neg hraw, htg, htu, hpg, hg2, hpu]
    | some u =>
      have := hbad u hpu
      simp [changeGroupOwner2, if_neg hraw, htg, htu, hpg, hg2, hpu, this]
  · intro rawBody f pm t htrim hcook hcs htg htt hbad
    rcases hbad with hbad | hbad
    · simp [changeOwner0, if_neg htrim, hcook, hcs, htg, htt, hbad]
    · cases hpg : parseIntJS (fS f.groupId) <;>
        simp [changeOwner0, if_neg htrim, hcook, hcs, htg, htt, hbad, hpg]
  · intro rawBody f pm t hraw htrim htc htcs htg htt hbad
    rcases hbad with hbad | hbad
    · simp [changeOwner5, hraw, htrim, htc, htcs, htg, htt, hbad]
    · cases hpg : parseIntJS (fS f.groupId) <;>
        simp [changeOwner5, hraw, htrim, htc, htcs, htg, htt, hbad, hpg]

/-- Payload with a negative groupId. -/
def fNegG : Fields :=
  { cookie := some "CAEaAhAD1234567890", groupId := some "-3",
    userId := some "4" }

/-- Payload with a negative userId. -/
def fNegU : Fields :=
  { cookie := some "CAEaAhAD1234567890", groupId := some "3",
    userId := some "-4" }

/-- Payload with a non-numeric groupId for the NaN-only variants. -/
def fNaN : Fields :=
  { cookie := some "CAEaAhAD1234567890", csrfToken := some "TOK",
    groupId := some "abc", targetId := some "5" }

/-- C4 witness: the amended theorem applied at concrete inputs. -/
theorem c4_witness :
    (changeGroupOwnerFull ⟨"POST", some "x", some fNegG, ""⟩ (fun _ => 0) "now" trOk200 =
      (⟨400, none, J.obj
         [("success", J.bool false),
          ("error", J.str "Invalid groupId: must be a positive number")]⟩, [])) ∧
    (changeGroupOwnerFull ⟨"POST", some "x", some fNegU, ""⟩ (fun _ => 0) "now" trOk200 =
      (⟨400, none, J.obj
         [("success", J.bool false),
          ("error", J.str "Invalid newOwnerId: must be a positive number")]⟩, [])) ∧
    (changeGroupOwner2 ⟨"POST", some "x", some fNegG, ""⟩ "now" trOk200 =
      (⟨400, none, J.obj
         [("success", J.bool false), ("error", J.str "Invalid groupId"),
          ("tip", J.str "groupId must be a positive number")]⟩, [])) ∧
    (changeGroupOwner2 ⟨"POST", some "x", some fNegU, ""⟩ "now" trOk200 =
      (⟨400, none, J.obj
         [("success", J.bool false), ("error", J.str "Invalid userId"),
          ("tip", J.str "userId must be a positive number")]⟩, [])) ∧
    (changeOwner0 ⟨"POST", some "x", some fNaN, ""⟩ trOk200 =
      (⟨400, none, J.obj
         [("error", J.str "groupId and targetId must be numbers")]⟩, [])) ∧
    (changeOwner5 ⟨"POST", some "x", some fNaN, ""⟩ trOk200 =
      (⟨400, none, J.obj
         [("error", J.str "groupId and targetId must be valid numbers")]⟩, [])) := by
  refine ⟨?_, ?_, ?_, ?_, ?_, ?_⟩
  · exact c4_amended.1 "x" fNegG "" "now" (fun _ => 0) trOk200 (by decide)
      (by decide) (by decide) (by decide)
      (by intro g hg
          have h2 : parseIntJS (fS fNegG.groupId) = some (-3) := by decide
          rw [h2] at hg
          injection hg with h
          omega)
  · exact c4_amended.2.1 "x" fNegU "" "now" (fun _ => 0) trOk200 3 (by decide)
      (by decide) (by decide) (by decide) (by decide) (by decide)
      (by intro u hu
          have h2 : parseIntJS (fS fNegU.userId) = some (-4) := by decide
          rw [h2] at hu
          injection hu with h
          omega)
  · exact c4_amended.2.2.1 "x" fNegG "" "now" trOk200 (by decide)
      (by decide) (by decide)
      (by intro g hg
          have h2 : parseIntJS (fS fNegG.groupId) = some (-3) := by decide
          rw [h2] at hg
          injection hg with h
          omega)
  · exact c4_amended.2.2.2.1 "x" fNegU "" "now" trOk200 3 (by decide)
      (by decide) (by decide) (by decide) (by decide)
      (by intro u hu
          have h2 : parseIntJS (fS fNegU.userId) = some (-4) := by decide
          rw [h2] at hu
          injection hu with h
          omega)
  · exact c4_amended.2.2.2.2.1 "x" fNaN "" trOk200 (by decide) (by decide)
      (by decide) (by decide) (by decide) (Or.inl (by decide))
  · exact c4_amended.2.2.2.2.2 "x" fNaN "" trOk200 (by decide) (by decide)
      (by decide) (by decide) (by decide) (by decide) (Or.inl (by decide))

/-- C7, counterexample: the change-owner variant with the platform body
parser answers a GET with status 405 but does not set the `Allow: POST`
header. -/
theorem c7_counterexample :
    (changeOwner4 ⟨"GET", {}⟩ trOk200).1.status = 405 ∧
    (changeOwner4 ⟨"GET", {}⟩ trOk200).1.allow = none ∧
    (transferSimple ⟨"GET", {}⟩ trOk200).1.status = 405 ∧
    (transferSimple ⟨"GET", {}⟩ trOk200).1.allow = none :=
  ⟨rfl, rfl, rfl, rfl⟩

/-- C7, amended: every handler answers a non-POST method with status 405;
the raw-body variants and the comprehensive transfer handler set the
`Allow: POST` response header, but the single-file transfer handler and the
platform-parsed change-owner variant return the 405 without an `Allow`
header. -/
theorem c7_amended :
    ∀ (m : String), m ≠ "POST" →
    ∀ (raw : Option String) (p : Option Fields) (pm : String) (f : Fields)
      (ageOf : String → Int) (nowISO : String) (t : Nat → FetchOutcome),
      ((getCsrf3 ⟨m, raw, p, pm⟩ t).1.status = 405 ∧
       (getCsrf3 ⟨m, raw, p, pm⟩ t).1.allow = some "POST") ∧
      ((getCsrf1 ⟨m, raw, p, pm⟩ nowISO t).1.status = 405 ∧
       (getCsrf1 ⟨m, raw, p, pm⟩ nowISO t).1.allow = some "POST") ∧
      ((changeGroupOwner2 ⟨m, raw, p, pm⟩ nowISO t).1.status = 405 ∧
       (changeGroupOwner2 ⟨m, raw, p, pm⟩ nowISO t).1.allow = some "POST") ∧
      ((changeOwner0 ⟨m, raw, p, pm⟩ t).1.status = 405 ∧
       (changeOwner0 ⟨m, raw, p, pm⟩ t).1.allow = some "POST") ∧
      ((changeOwner5 ⟨m, raw, p, pm⟩ t).1.status = 405 ∧
       (changeOwner5 ⟨m, raw, p, pm⟩ t).1.allow = some "POST") ∧
      ((changeGroupOwnerFull ⟨m, raw, p, pm⟩ ageOf nowISO t).1.status = 405 ∧
       (changeGroupOwnerFull ⟨m, raw, p, pm⟩ ageOf nowISO t).1.allow = some "POST") ∧
      ((transferSimple ⟨m, f⟩ t).1.status = 405 ∧
       (transferSimple ⟨m, f⟩ t).1.allow = none) ∧
      ((changeOwner4 ⟨m, f⟩ t).1.status = 405 ∧
       (changeOwner4 ⟨m, f⟩ t).1.allow = none) := by
  intro m hm raw p pm f ageOf nowISO t
  simp [getCsrf3, getCsrf1, changeGroupOwner2, changeOwner0, changeOwner5,
    changeGroupOwnerFull, transferSimple, changeOwner4, hm]

/-- C7 witness: the amended theorem applied at a concrete GET request. -/
theorem c7_witness :
    ((getCsrf3 ⟨"GET", some "x", some {}, ""⟩ trOk200).1.status = 405 ∧
     (getCsrf3 ⟨"GET", some "x", some {}, ""⟩ trOk200).1.allow = some "POST") ∧
    ((getCsrf1 ⟨"GET", some "x", some {}, ""⟩ "now" trOk200).1.status = 405 ∧
     (getCsrf1 ⟨"GET", some "x", some {}, ""⟩ "now" trOk200).1.allow = some "POST") ∧
    ((changeGroupOwner2 ⟨"GET", some "x", some {}, ""⟩ "now" trOk200).1.status = 405 ∧
     (changeGroupOwner2 ⟨"GET", some "x", some {}, ""⟩ "now" trOk200).1.allow = some "POST") ∧
    ((changeOwner0 ⟨"GET", some "x", some {}, ""⟩ trOk200).1.status = 405 ∧
     (changeOwner0 ⟨"GET", some "x", some {}, ""⟩ trOk200).1.allow = some "POST") ∧
    ((changeOwner5 ⟨"GET", some "x", some {}, ""⟩ trOk200).1.status = 405 ∧
     (changeOwner5 ⟨"GET", some "x", some {}, ""⟩ trOk200).1.allow = some "POST") ∧
    ((changeGroupOwnerFull ⟨"GET", some "x", some {}, ""⟩ (fun _ => 0) "now" trOk200).1.status = 405 ∧
     (changeGroupOwnerFull ⟨"GET", some "x", some {}, ""⟩ (fun _ => 0) "now" trOk200).1.allow = some "POST") ∧
    ((transferSimple ⟨"GET", {}⟩ trOk200).1.status = 405 ∧
     (transferSimple ⟨"GET", {}⟩ trOk200).1.allow = none) ∧
    ((changeOwner4 ⟨"GET", {}⟩ trOk200).1.status = 405 ∧
     (changeOwner4 ⟨"GET", {}⟩ trOk200).1.allow = none) :=
  c7_amended "GET" (by decide) (some "x") (some {}) "" {} (fun _ => 0) "now" trOk200

/-- Valid change-owner payload for the C6 counterexample. -/
def fC6 : Fields :=
  { cookie := some "CAEaAhAD1234567890", csrfToken := some "TOK",
    groupId := some "1", targetId := some "2" }

/-- Trace answering 500 with a parseable body. -/
def tr500 : Nat → FetchOutcome :=
  fun _ => FetchOutcome.resp ⟨500, none, "ise", some (J.obj []), ""⟩

/-- C6, counterexample: the change-owner variant relays an upstream 500
verbatim as its own 500 instead of surfacing a 502 RemoteUnavailable. -/
theorem c6_counterexample :
    (changeOwner5 ⟨"POST", some "x", some fC6, ""⟩ tr500).1.status = 500 ∧
    (changeOwner5 ⟨"POST", some "x", some fC6, ""⟩ tr500).1.status ≠ 502 :=
  ⟨rfl, by decide⟩

/-- Authenticated-user body for the C6 witness trace. -/
def uJ : J := J.obj [("id", J.num 9), ("name", J.str "alice")]

/-- Group body (owned by user 9) for the C6 witness trace. -/
def gJ : J := J.obj [("owner", J.obj [("userId", J.num 9)]), ("name", J.str "G")]

/-- Trace driving the comprehensive handler to the mutation, whose response
has status `s`: eligibility (2 calls), group info, CSRF primary with token,
then the mutation answering `s`. -/
def trC6 (s : Nat) : Nat → FetchOutcome :=
  fun n =>
    if n = 0 then FetchOutcome.resp ⟨200, none, "", some uJ, ""⟩
    else if n = 1 then FetchOutcome.resp ⟨200, none, "", some (J.obj []), ""⟩
    else if n = 2 then FetchOutcome.resp ⟨200, none, "", some gJ, ""⟩
    else if n = 3 then FetchOutcome.resp ⟨403, some "TOK", "", none, ""⟩
    else FetchOutcome.resp ⟨s, none, "", some (J.obj []), ""⟩

/-- Payload for the comprehensive-handler C6 conjunct. -/
def fC6b : Fields :=
  { cookie := some "CAEaAhAD1234567890", groupId := some "3",
    userId := some "4" }


/-- The outbound calls of the eligibility step on the C6 trace. -/
def elOutsC6 : List Outbound :=
  [⟨"https://users.roblox.com/v1/users/authenticated",
    ".ROBLOSECURITY=CAEaAhAD1234567890", none⟩,
   ⟨"https://users.roblox.com/v1/users/9",
    ".ROBLOSECURITY=CAEaAhAD1234567890", none⟩]

/-- The single warning produced on the C6 trace (no verified email). -/
def wC6 : List String := ["Email not verified - may cause transfer restrictions"]

/-- On the C6 trace, the comprehensive handler maps an upstream mutation
status of at least 500 to a local 502. -/
theorem hb502aux (s : Nat) (h500 : 500 ≤ s) :
    (changeGroupOwnerFull ⟨"POST", some "x", some fC6b, ""⟩ (fun _ => 0)
      "now" (trC6 s)).1.status = 502 := by
  have hok : okStatus s = false := by
    simp only [okStatus, Bool.and_eq_false_iff, decide_eq_false_iff_not]
    omega
  have h401 : ¬ (s = 401) := by omega
  have h403 : ¬ (s = 403) := by omega
  have h404 : ¬ (s = 404) := by omega
  have h429 : ¬ (s = 429) := by omega
  have hge : 500 ≤ s := h500
  have h1 : changeGroupOwnerFull ⟨"POST", some "x", some fC6b, ""⟩ (fun _ => 0)
      "now" (trC6 s) =
      ((hbSteps35 3 4 ⟨some 9, "alice", -1, false, false⟩ wC6
          "CAEaAhAD1234567890" "now" (fun str => J.str (strOr str "Unknown"))
          (shiftT (trC6 s) 2)).1,
       elOutsC6 ++ (hbSteps35 3 4 ⟨some 9, "alice", -1, false, false⟩ wC6
          "CAEaAhAD1234567890" "now" (fun str => J.str (strOr str "Unknown"))
          (shiftT (trC6 s) 2)).2) := rfl
  rw [h1]
  have hgr : getGroupInfo 3 "CAEaAhAD1234567890" (shiftT (trC6 s) 2) =
      (GRes.ok gJ, [⟨"https://groups.roblox.com/v1/groups/3",
        ".ROBLOSECURITY=CAEaAhAD1234567890", none⟩]) := rfl
  have hcs : getCSRFToken "CAEaAhAD1234567890"
      (shiftT (shiftT (trC6 s) 2) 1) =
      (CSRFRes.success "TOK", [⟨loginUrl,
        ".ROBLOSECURITY=CAEaAhAD1234567890", none⟩]) := rfl
  have htr : transferGroupOwnership 3 4 "CAEaAhAD1234567890" "TOK"
      (shiftT (shiftT (trC6 s) 2) 2) =
      (TRes.fail ("HTTP " ++ toString s ++ ": " ++ "Unknown error") s,
       [⟨changeOwnerUrl 3, ".ROBLOSECURITY=CAEaAhAD1234567890", some "TOK"⟩]) := by
    have hresp : (shiftT (shiftT (trC6 s) 2) 2) 0 =
        FetchOutcome.resp ⟨s, none, "", some (J.obj []), ""⟩ := rfl
    unfold transferGroupOwnership
    rw [hresp]
    simp [hok, h401, h403, h404, h429, extractRobloxErr, jGet]
  simp [hbSteps35, hgr, hcs, htr, gJ, jGet, truthyJ, truthyO, jParseInt,
    eqNum, jStrD, h403, hge]

/-- C6, amended: the change-group-owner variant (a) and the comprehensive
transfer handler (b) surface an upstream 5xx mutation outcome as a local
502; the simpler variants relay the upstream status verbatim, including
5xx: part_005 (c), the single-file transfer handler (d), part_000 for any
non-401/403 status (e), and part_004 (f). -/
theorem c6_amended :
    (∀ (rawBody : String) (f : Fields) (pm nowISO : String)
       (t : Nat → FetchOutcome) (r r2 : RemoteResponse) (g u : Int) (tok : String),
       rawBody ≠ "" →
       truthyS f.groupId = true → truthyS f.userId = true →
       parseIntJS (fS f.groupId) = some g → 0 < g →
       parseIntJS (fS f.userId) = some u → 0 < u →
       ¬ badCACookie f →
       t 0 = FetchOutcome.resp r → r.csrfHeader = some tok →
       t 1 = FetchOutcome.resp r2 → 500 ≤ r2.status →
       (changeGroupOwner2 ⟨"POST", some rawBody, some f, pm⟩ nowISO t).1.status = 502) ∧
    (∀ (s : Nat), 500 ≤ s →
       (changeGroupOwnerFull ⟨"POST", some "x", some fC6b, ""⟩ (fun _ => 0)
         "now" (trC6 s)).1.status = 502) ∧
    (∀ (rawBody : String) (f : Fields) (pm : String) (t : Nat → FetchOutcome)
       (r : RemoteResponse) (d : J),
       rawBody ≠ "" → trimJS rawBody ≠ "" →
       truthyS f.cookie = true → truthyS f.csrfToken = true →
       truthyS f.groupId = true → truthyS f.targetId = true →
       (∃ g, parseIntJS (fS f.groupId) = some g) →
       (∃ u, parseIntJS (fS f.targetId) = some u) →
       t 0 = FetchOutcome.resp r → r.bodyJson = some d →
       okStatus r.status = false →
       (changeOwner5 ⟨"POST", some rawBody, some f, pm⟩ t).1.status = r.status) ∧
    (∀ (f : Fields) (t : Nat → FetchOutcome) (r r2 : RemoteResponse) (tok : String),
       truthyS f.groupId = true → truthyS f.newOwnerId = true →
       truthyS f.cookie = true →
       t 0 = FetchOutcome.resp r → okStatus r.status = true →
       r.csrfHeader = some tok →
       t 1 = FetchOutcome.resp r2 → okStatus r2.status = false →
       (transferSimple ⟨"POST", f⟩ t).1.status = r2.status) ∧
    (∀ (rawBody : String) (f : Fields) (pm : String) (t : Nat → FetchOutcome)
       (r : RemoteResponse),
       trimJS rawBody ≠ "" →
       stripQuotesJS (trimJS (fS f.cookie)) ≠ "" → fS f.csrfToken ≠ "" →
       truthyS f.groupId = true → truthyS f.targetId = true →
       (∃ g, parseIntJS (fS f.groupId) = some g) →
       (∃ u, parseIntJS (fS f.targetId) = some u) →
       t 0 = FetchOutcome.resp r → okStatus r.status = false →
       r.status ≠ 401 → r.status ≠ 403 →
       (changeOwner0 ⟨"POST", some rawBody, some f, pm⟩ t).1.status = r.status) ∧
    (∀ (f : Fields) (t : Nat → FetchOutcome) (r r2 : RemoteResponse)
       (tok : String) (d : J),
       truthyS f.ownerId = true → truthyS f.targetId = true →
       truthyS f.cookie = true → truthyS f.groupId = true →
       t 0 = FetchOutcome.resp r → r.csrfHeader = some tok →
       t 1 = FetchOutcome.resp r2 → r2.bodyJson = some d →
       okStatus r2.status = false →
       (changeOwner4 ⟨"POST", f⟩ t).1.status = r2.status) := by
  refine ⟨?_, ?_, ?_, ?_, ?_, ?_⟩
  · intro rawBody f pm nowISO t r r2 g u tok hraw htg htu hpg hgpos hpu hupos
      hck ht hh ht2 h500
    unfold badCACookie cleanCA at hck
    push_neg at hck
    obtain ⟨hc1, hc2, hc3⟩ := hck
    have hg2 : ¬ (g ≤ 0) := by omega
    have hu2 : ¬ (u ≤ 0) := by omega
    have hlen : ¬ ((stripRobloPrefix (trimJS (fS f.cookie))).length < 10) := by
      omega
    have hne200 : ¬ (r2.status = 200) := by omega
    have hge : r2.status ≥ 500 := h500
    simp [changeGroupOwner2, if_neg hraw, htg, htu, hpg, hpu, hg2, hu2,
      hc1, hlen, hc3, ht, hh, ht2, hne200, hge]
  · intro s h500
    exact hb502aux s h500
  · intro rawBody f pm t r d hraw htrim htc htcs htg htt hpge hpue ht hj hok
    obtain ⟨g, hpg⟩ := hpge
    obtain ⟨u, hpu⟩ := hpue
    simp [changeOwner5, hraw, htrim, htc, htcs, htg, htt, hpg, hpu, ht, hj, hok]
  · intro f t r r2 tok htg htn htc ht hok hh ht2 hok2
    simp [transferSimple, htg, htn, htc, ht, hok, hh, ht2, hok2]
  · intro rawBody f pm t r htrim hcook hcs htg htt hpge hpue ht hok h401 h403
    obtain ⟨g, hpg⟩ := hpge
    obtain ⟨u, hpu⟩ := hpue
    simp [changeOwner0, if_neg htrim, hcook, hcs, htg, htt, hpg, hpu, ht, hok,
      h401, h403]
  · intro f t r r2 tok d hto htt htc htg ht hh ht2 hj hok2
    simp [changeOwner4, hto, htt, htc, htg, ht, hh, ht2, hj, hok2]

/-- Token-carrying 403 response. -/
def rTok : RemoteResponse := ⟨403, some "TOK", "", none, ""⟩

/-- Token-less 503 response with a parseable body. -/
def r503 : RemoteResponse := ⟨503, none, "unavailable", some (J.obj []), ""⟩

/-- 2xx response carrying the token. -/
def rOkTok : RemoteResponse := ⟨200, some "TOK", "", some (J.obj []), ""⟩

/-- Trace answering 503 to every call. -/
def tr503 : Nat → FetchOutcome := fun _ => FetchOutcome.resp r503

/-- Trace: token fetch succeeds, mutation answers 503. -/
def trC6w : Nat → FetchOutcome :=
  fun n => if n = 0 then FetchOutcome.resp rTok else FetchOutcome.resp r503

/-- Trace for the single-file handler: 200-with-token, then 503. -/
def trC6w2 : Nat → FetchOutcome :=
  fun n => if n = 0 then FetchOutcome.resp rOkTok else FetchOutcome.resp r503

/-- Payload for the part_004 conjunct of the C6 witness. -/
def fP4 : Fields :=
  { cookie := some "CAEaAhAD1234567890", ownerId := some "1",
    targetId := some "2", groupId := some "3" }

/-- C6 witness: the amended theorem applied at concrete inputs. -/
theorem c6_witness :
    ((changeGroupOwner2 ⟨"POST", some "x", some fC6b, ""⟩ "now" trC6w).1.status = 502) ∧
    ((changeGroupOwnerFull ⟨"POST", some "x", some fC6b, ""⟩ (fun _ => 0)
        "now" (trC6 503)).1.status = 502) ∧
    ((changeOwner5 ⟨"POST", some "x", some fC6, ""⟩ tr503).1.status = r503.status) ∧
    ((transferSimple ⟨"POST", reqBody1W⟩ trC6w2).1.status = r503.status) ∧
    ((changeOwner0 ⟨"POST", some "x", some fC6, ""⟩ tr500).1.status =
      (500 : Nat)) ∧
    ((changeOwner4 ⟨"POST", fP4⟩ trC6w).1.status = r503.status) :=
  ⟨c6_amended.1 "x" fC6b "" "now" trC6w rTok r503 3 4 "TOK" (by decide)
     (by decide) (by decide) (by decide) (by decide) (by decide) (by decide)
     (by decide) rfl rfl rfl (by decide),
   c6_amended.2.1 503 (by decide),
   c6_amended.2.2.1 "x" fC6 "" tr503 r503 (J.obj []) (by decide) (by decide)
     (by decide) (by decide) (by decide) (by decide) ⟨1, by decide⟩
     ⟨2, by decide⟩ rfl rfl (by decide),
   c6_amended.2.2.2.1 reqBody1W trC6w2 rOkTok r503 "TOK" (by decide)
     (by decide) (by decide) rfl (by decide) rfl rfl (by decide),
   c6_amended.2.2.2.2.1 "x" fC6 "" tr500 ⟨500, none, "ise", some (J.obj []), ""⟩
     (by decide) (by decide) (by decide) (by decide) (by decide)
     ⟨1, by decide⟩ ⟨2, by decide⟩ rfl (by decide) (by decide) (by decide),
   c6_amended.2.2.2.2.2 fP4 trC6w rTok r503 "TOK" (J.obj []) (by decide)
     (by decide) (by decide) (by decide) rfl rfl rfl rfl (by decide)⟩

/-- The get-csrf (logout) handler issues no outbound call unless the method
is POST and every input validation passed. -/
theorem noNetAux3 (req : RawReq) (t : Nat → FetchOutcome)
    (h : (getCsrf3 req t).2 ≠ []) :
    req.method = "POST" ∧ ∃ s f, req.raw = some s ∧ trimJS s ≠ "" ∧
      req.parsed = some f ∧ stripQuotesJS (trimJS (fS f.cookie)) ≠ "" := by
  obtain ⟨m, raw, parsed, pm⟩ := req
  by_cases hm : m = "POST"
  · subst hm
    cases raw with
    | none => simp [getCsrf3] at h
    | some s =>
      by_cases htrim : trimJS s = ""
      · simp [getCsrf3, htrim] at h
      · cases parsed with
        | none => simp [getCsrf3, htrim] at h
        | some f =>
          by_cases hcook : stripQuotesJS (trimJS (fS f.cookie)) = ""
          · simp [getCsrf3, htrim, hcook] at h
          · exact ⟨rfl, s, f, rfl, htrim, rfl, hcook⟩
  · simp [getCsrf3, hm] at h

/-- The get-csrf (login) handler issues no outbound call unless the method
is POST and every input validation passed. -/
theorem noNetAux1 (req : RawReq) (nowISO : String) (t : Nat → FetchOutcome)
    (h : (getCsrf1 req nowISO t).2 ≠ []) :
    req.method = "POST" ∧ ∃ s f, req.raw = some s ∧
      (if s = "" then some ({} : Fields) else req.parsed) = some f ∧
      ¬ badCACookie f := by
  obtain ⟨m, raw, parsed, pm⟩ := req
  by_cases hm : m = "POST"
  · subst hm
    cases raw with
    | none => simp [getCsrf1] at h
    | some s =>
      cases hpf : (if s = "" then some ({} : Fields) else parsed) with
      | none => simp [getCsrf1, hpf] at h
      | some f =>
        by_cases hcook : badCACookie f
        · unfold badCACookie cleanCA at hcook
          simp only [Bool.not_eq_true] at hcook
          simp [getCsrf1, hpf, hcook] at h
        · exact ⟨rfl, s, f, rfl, hpf, hcook⟩
  · simp [getCsrf1, hm] at h

/-- The change-group-owner variant issues no outbound call unless the method
is POST and every input validation passed. -/
theorem noNetAux2 (req : RawReq) (nowISO : String) (t : Nat → FetchOutcome)
    (h : (changeGroupOwner2 req nowISO t).2 ≠ []) :
    req.method = "POST" ∧ ∃ s f g u, req.raw = some s ∧
      (if s = "" then some ({} : Fields) else req.parsed) = some f ∧
      truthyS f.groupId = true ∧ truthyS f.userId = true ∧
      parseIntJS (fS f.groupId) = some g ∧ 0 < g ∧
      parseIntJS (fS f.userId) = some u ∧ 0 < u ∧
      ¬ badCACookie f := by
  obtain ⟨m, raw, parsed, pm⟩ := req
  by_cases hm : m = "POST"
  · subst hm
    cases raw with
    | none => simp [changeGroupOwner2] at h
    | some s =>
      cases hpf : (if s = "" then some ({} : Fields) else parsed) with
      | none => simp [changeGroupOwner2, hpf] at h
      | some f =>
        by_cases htg : truthyS f.groupId = true
        · by_cases htu : truthyS f.userId = true
          · cases hpg : parseIntJS (fS f.groupId) with
            | none => simp [changeGroupOwner2, hpf, htg, htu, hpg] at h
            | some g =>
              by_cases hgle : g ≤ 0
              · simp [changeGroupOwner2, hpf, htg, htu, hpg, hgle] at h
              · cases hpu : parseIntJS (fS f.userId) with
                | none =>
                  simp [changeGroupOwner2, hpf, htg, htu, hpg, hgle, hpu] at h
                | some u =>
                  by_cases hule : u ≤ 0
                  · simp [changeGroupOwner2, hpf, htg, htu, hpg, hgle, hpu,
                      hule] at h
                  · by_cases hck : badCACookie f
                    · unfold badCACookie cleanCA at hck
                      simp only [Bool.not_eq_true] at hck
                      simp [changeGroupOwner2, hpf, htg, htu, hpg, hgle, hpu,
                        hule, hck] at h
                    · exact ⟨rfl, s, f, g, u, rfl, hpf, htg, htu, hpg,
                        by omega, hpu, by omega, hck⟩
          · simp [changeGroupOwner2, hpf, htg, htu] at h
        · simp [changeGroupOwner2, hpf, htg] at h
  · simp [changeGroupOwner2, hm] at h

/-- The change-owner (part_000) handler issues no outbound call unless the
method is POST and every input validation passed. -/
theorem noNetAux0 (req : RawReq) (t : Nat → FetchOutcome)
    (h : (changeOwner0 req t).2 ≠ []) :
    req.method = "POST" ∧ ∃ s f g tid, req.raw = some s ∧ trimJS s ≠ "" ∧
      req.parsed = some f ∧
      ¬ (stripQuotesJS (trimJS (fS f.cookie)) = "" ∨ fS f.csrfToken = "" ∨
         ¬ truthyS f.groupId = true ∨ ¬ truthyS f.targetId = true) ∧
      parseIntJS (fS f.groupId) = some g ∧
      parseIntJS (fS f.targetId) = some tid := by
  obtain ⟨m, raw, parsed, pm⟩ := req
  by_cases hm : m = "POST"
  · subst hm
    cases raw with
    | none => simp [changeOwner0] at h
    | some s =>
      by_cases htrim : trimJS s = ""
      · simp [changeOwner0, htrim] at h
      · cases parsed with
        | none => simp [changeOwner0, htrim] at h
        | some f =>
          by_cases hmiss : (stripQuotesJS (trimJS (fS f.cookie)) = "" ∨
              fS f.csrfToken = "" ∨ ¬ truthyS f.groupId = true ∨
              ¬ truthyS f.targetId = true)
          · simp only [Bool.not_eq_true] at hmiss
            simp [changeOwner0, htrim, hmiss] at h
          · cases hpg : parseIntJS (fS f.groupId) with
            | none =>
              simp only [Bool.not_eq_true] at hmiss
              simp [changeOwner0, htrim, hmiss, hpg] at h
            | some g =>
              cases hpt : parseIntJS (fS f.targetId) with
              | none =>
                simp only [Bool.not_eq_true] at hmiss
                simp [changeOwner0, htrim, hmiss, hpg, hpt] at h
              | some tid => exact ⟨rfl, s, f, g, tid, rfl, htrim, rfl, hmiss,
                  hpg, hpt⟩
  · simp [changeOwner0, hm] at h

/-- The change-owner (part_005) handler issues no outbound call unless the
method is POST and every input validation passed. -/
theorem noNetAux5 (req : RawReq) (t : Nat → FetchOutcome)
    (h : (changeOwner5 req t).2 ≠ []) :
    req.method = "POST" ∧ ∃ s f g tid, req.raw = some s ∧
      ¬ (s = "" ∨ trimJS s = "") ∧ req.parsed = some f ∧
      ¬ (¬ truthyS f.cookie = true ∨ ¬ truthyS f.csrfToken = true ∨
         ¬ truthyS f.groupId = true ∨ ¬ truthyS f.targetId = true) ∧
      parseIntJS (fS f.groupId) = some g ∧
      parseIntJS (fS f.targetId) = some tid := by
  obtain ⟨m, raw, parsed, pm⟩ := req
  by_cases hm : m = "POST"
  · subst hm
    cases raw with
    | none => simp [changeOwner5] at h
    | some s =>
      by_cases hemp : (s = "" ∨ trimJS s = "")
      · simp [changeOwner5, hemp] at h
      · cases parsed with
        | none => simp [changeOwner5, hemp] at h
        | some f =>
          by_cases hmiss : (¬ truthyS f.cookie = true ∨
              ¬ truthyS f.csrfToken = true ∨ ¬ truthyS f.groupId = true ∨
              ¬ truthyS f.targetId = true)
          · have hc : ((truthyS f.cookie = false ∨ truthyS f.csrfToken = false) ∨
                truthyS f.groupId = false) ∨ truthyS f.targetId = false := by
              simp only [Bool.not_eq_true] at hmiss
              tauto
            simp [changeOwner5, hemp, hc] at h
          · cases hpg : parseIntJS (fS f.groupId) with
            | none =>
              simp only [Bool.not_eq_true] at hmiss
              push_neg at hmiss
              simp [changeOwner5, hemp, hmiss, hpg] at h
            | some g =>
              cases hpt : parseIntJS (fS f.targetId) with
              | none =>
                simp only [Bool.not_eq_true] at hmiss
                push_neg at hmiss
                simp [changeOwner5, hemp, hmiss, hpg, hpt] at h
              | some tid => exact ⟨rfl, s, f, g, tid, rfl, hemp, rfl, hmiss,
                  hpg, hpt⟩
  · simp [changeOwner5, hm] at h

/-- The change-owner (part_004) handler issues no outbound call unless the
method is POST and all four required fields are present. -/
theorem noNetAux4 (req : SimpleReq) (t : Nat → FetchOutcome)
    (h : (changeOwner4 req t).2 ≠ []) :
    req.method = "POST" ∧
    ¬ (¬ truthyS req.body.ownerId = true ∨ ¬ truthyS req.body.targetId = true ∨
       ¬ truthyS req.body.cookie = true ∨ ¬ truthyS req.body.groupId = true) := by
  obtain ⟨m, f⟩ := req
  by_cases hm : m = "POST"
  · subst hm
    by_cases hmiss : (¬ truthyS f.ownerId = true ∨ ¬ truthyS f.targetId = true ∨
        ¬ truthyS f.cookie = true ∨ ¬ truthyS f.groupId = true)
    · have hc : ((truthyS f.ownerId = false ∨ truthyS f.targetId = false) ∨
          truthyS f.cookie = false) ∨ truthyS f.groupId = false := by
        simp only [Bool.not_eq_true] at hmiss
        tauto
      simp [changeOwner4, hc] at h
    · exact ⟨rfl, hmiss⟩
  · simp [changeOwner4, hm] at h

/-- The single-file transfer handler issues no outbound call unless the
method is POST and all three required fields are present. -/
theorem noNetAuxA (req : SimpleReq) (t : Nat → FetchOutcome)
    (h : (transferSimple req t).2 ≠ []) :
    req.method = "POST" ∧
    ¬ (¬ truthyS req.body.groupId = true ∨ ¬ truthyS req.body.newOwnerId = true ∨
       ¬ truthyS req.body.cookie = true) := by
  obtain ⟨m, f⟩ := req
  by_cases hm : m = "POST"
  · subst hm
    by_cases hmiss : (¬ truthyS f.groupId = true ∨
        ¬ truthyS f.newOwnerId = true ∨ ¬ truthyS f.cookie = true)
    · have hc : (truthyS f.groupId = false ∨ truthyS f.newOwnerId = false) ∨
          truthyS f.cookie = false := by
        simp only [Bool.not_eq_true] at hmiss
        tauto
      simp [transferSimple, hc] at h
    · exact ⟨rfl, hmiss⟩
  · simp [transferSimple, hm] at h

/-- The comprehensive transfer handler issues no outbound call unless the
method is POST and every input validation passed. -/
theorem noNetAuxB (req : RawReq) (ageOf : String → Int) (nowISO : String)
    (t : Nat → FetchOutcome)
    (h : (changeGroupOwnerFull req ageOf nowISO t).2 ≠ []) :
    req.method = "POST" ∧ ∃ s f g u, req.raw = some s ∧
      (if s = "" then some ({} : Fields) else req.parsed) = some f ∧
      truthyS f.groupId = true ∧ truthyS f.userId = true ∧
      truthyS f.cookie = true ∧
      parseIntJS (fS f.groupId) = some g ∧ 0 < g ∧
      parseIntJS (fS f.userId) = some u ∧ 0 < u ∧
      ¬ (stripRobloPrefix (trimJS (fS f.cookie)) = "" ∨
         (stripRobloPrefix (trimJS (fS f.cookie))).length < 10) := by
  obtain ⟨m, raw, parsed, pm⟩ := req
  by_cases hm : m = "POST"
  · subst hm
    cases raw with
    | none => simp [changeGroupOwnerFull] at h
    | some s =>
      cases hpf : (if s = "" then some ({} : Fields) else parsed) with
      | none => simp [changeGroupOwnerFull, hpf] at h
      | some f =>
        by_cases hmiss : (¬ truthyS f.groupId = true ∨
            ¬ truthyS f.userId = true ∨ ¬ truthyS f.cookie = true)
        · have hc : (truthyS f.groupId = false ∨ truthyS f.userId = false) ∨
              truthyS f.cookie = false := by
            simp only [Bool.not_eq_true] at hmiss
            tauto
          simp [changeGroupOwnerFull, hpf, hc] at h
        · push_neg at hmiss
          obtain ⟨htg, htu, htc⟩ := hmiss
          cases hpg : parseIntJS (fS f.groupId) with
          | none => simp [changeGroupOwnerFull, hpf, htg, htu, htc, hpg] at h
          | some g =>
            by_cases hgle : g ≤ 0
            · simp [changeGroupOwnerFull, hpf, htg, htu, htc, hpg, hgle] at h
            · cases hpu : parseIntJS (fS f.userId) with
              | none =>
                simp [changeGroupOwnerFull, hpf, htg, htu, htc, hpg, hgle,
                  hpu] at h
              | some u =>
                by_cases hule : u ≤ 0
                · simp [changeGroupOwnerFull, hpf, htg, htu, htc, hpg, hgle,
                    hpu, hule] at h
                · by_cases hck : (stripRobloPrefix (trimJS (fS f.cookie)) = "" ∨
                      (stripRobloPrefix (trimJS (fS f.cookie))).length < 10)
                  · simp [changeGroupOwnerFull, hpf, htg, htu, htc, hpg, hgle,
                      hpu, hule, hck] at h
                  · exact ⟨rfl, s, f, g, u, rfl, hpf, htg, htu, htc, hpg,
                      by omega, hpu, by omega, hck⟩
  · simp [changeGroupOwnerFull, hm] at h

/-- C5: in every handler, a request that fails input validation (missing
field, malformed or empty body, invalid credential, or invalid numeric id)
is answered locally with zero outbound network calls: whenever the
conjunction of the handler's validation conditions fails, the recorded
outbound-call list is empty. -/
theorem c5_validation_no_network :
    (∀ (req : RawReq) (t : Nat → FetchOutcome),
       ¬ (req.method = "POST" ∧ ∃ s f, req.raw = some s ∧ trimJS s ≠ "" ∧
          req.parsed = some f ∧ stripQuotesJS (trimJS (fS f.cookie)) ≠ "") →
       (getCsrf3 req t).2 = []) ∧
    (∀ (req : RawReq) (nowISO : String) (t : Nat → FetchOutcome),
       ¬ (req.method = "POST" ∧ ∃ s f, req.raw = some s ∧
          (if s = "" then some ({} : Fields) else req.parsed) = some f ∧
          ¬ badCACookie f) →
       (getCsrf1 req nowISO t).2 = []) ∧
    (∀ (req : RawReq) (nowISO : String) (t : Nat → FetchOutcome),
       ¬ (req.method = "POST" ∧ ∃ s f g u, req.raw = some s ∧
          (if s = "" then some ({} : Fields) else req.parsed) = some f ∧
          truthyS f.groupId = true ∧ truthyS f.userId = true ∧
          parseIntJS (fS f.groupId) = some g ∧ 0 < g ∧
          parseIntJS (fS f.userId) = some u ∧ 0 < u ∧
          ¬ badCACookie f) →
       (changeGroupOwner2 req nowISO t).2 = []) ∧
    (∀ (req : RawReq) (t : Nat → FetchOutcome),
       ¬ (req.method = "POST" ∧ ∃ s f g tid, req.raw = some s ∧ trimJS s ≠ "" ∧
          req.parsed = some f ∧
          ¬ (stripQuotesJS (trimJS (fS f.cookie)) = "" ∨ fS f.csrfToken = "" ∨
             ¬ truthyS f.groupId = true ∨ ¬ truthyS f.targetId = true) ∧
          parseIntJS (fS f.groupId) = some g ∧
          parseIntJS (fS f.targetId) = some tid) →
       (changeOwner0 req t).2 = []) ∧
    (∀ (req : RawReq) (t : Nat → FetchOutcome),
       ¬ (req.method = "POST" ∧ ∃ s f g tid, req.raw = some s ∧
          ¬ (s = "" ∨ trimJS s = "") ∧ req.parsed = some f ∧
          ¬ (¬ truthyS f.cookie = true ∨ ¬ truthyS f.csrfToken = true ∨
             ¬ truthyS f.groupId = true ∨ ¬ truthyS f.targetId = true) ∧
          parseIntJS (fS f.groupId) = some g ∧
          parseIntJS (fS f.targetId) = some tid) →
       (changeOwner5 req t).2 = []) ∧
    (∀ (req : SimpleReq) (t : Nat → FetchOutcome),
       ¬ (req.method = "POST" ∧
          ¬ (¬ truthyS req.body.ownerId = true ∨ ¬ truthyS req.body.targetId = true ∨
             ¬ truthyS req.body.cookie = true ∨ ¬ truthyS req.body.groupId = true)) →
       (changeOwner4 req t).2 = []) ∧
    (∀ (req : SimpleReq) (t : Nat → FetchOutcome),
       ¬ (req.method = "POST" ∧
          ¬ (¬ truthyS req.body.groupId = true ∨ ¬ truthyS req.body.newOwnerId = true ∨
             ¬ truthyS req.body.cookie = true)) →
       (transferSimple req t).2 = []) ∧
    (∀ (req : RawReq) (ageOf : String → Int) (nowISO : String)
       (t : Nat → FetchOutcome),
       ¬ (req.method = "POST" ∧ ∃ s f g u, req.raw = some s ∧
          (if s = "" then some ({} : Fields) else req.parsed) = some f ∧
          truthyS f.groupId = true ∧ truthyS f.userId = true ∧
          truthyS f.cookie = true ∧
          parseIntJS (fS f.groupId) = some g ∧ 0 < g ∧
          parseIntJS (fS f.userId) = some u ∧ 0 < u ∧
          ¬ (stripRobloPrefix (trimJS (fS f.cookie)) = "" ∨
             (stripRobloPrefix (trimJS (fS f.cookie))).length < 10)) →
       (changeGroupOwnerFull req ageOf nowISO t).2 = []) := by
  refine ⟨?_, ?_, ?_, ?_, ?_, ?_, ?_, ?_⟩
  · intro req t hno
    by_contra hne
    exact hno (noNetAux3 req t hne)
  · intro req nowISO t hno
    by_contra hne
    exact hno (noNetAux1 req nowISO t hne)
  · intro req nowISO t hno
    by_contra hne
    exact hno (noNetAux2 req nowISO t hne)
  · intro req t hno
    by_contra hne
    exact hno (noNetAux0 req t hne)
  · intro req t hno
    by_contra hne
    exact hno (noNetAux5 req t hne)
  · intro req t hno
    by_contra hne
    exact hno (noNetAux4 req t hne)
  · intro req t hno
    by_contra hne
    exact hno (noNetAuxA req t hne)
  · intro req ageOf nowISO t hno
    by_contra hne
    exact hno (noNetAuxB req ageOf nowISO t hne)

/-- A POST request whose body carries no fields at all. -/
def reqEmpty : RawReq := ⟨"POST", some "x", some {}, ""⟩

/-- C5 witness: the theorem applied to a concrete request with every field
missing -- each handler resolves it locally with zero outbound calls. -/
theorem c5_witness :
    (getCsrf3 reqEmpty trOk200).2 = [] ∧
    (getCsrf1 reqEmpty "now" trOk200).2 = [] ∧
    (changeGroupOwner2 reqEmpty "now" trOk200).2 = [] ∧
    (changeOwner0 reqEmpty trOk200).2 = [] ∧
    (changeOwner5 reqEmpty trOk200).2 = [] ∧
    (changeOwner4 ⟨"POST", {}⟩ trOk200).2 = [] ∧
    (transferSimple ⟨"POST", {}⟩ trOk200).2 = [] ∧
    (changeGroupOwnerFull reqEmpty (fun _ => 0) "now" trOk200).2 = [] :=
  ⟨c5_validation_no_network.1 reqEmpty trOk200
     (by rintro ⟨-, s, f, hs, htrim, hp, hcook⟩
         injection hp with hf
         subst hf
         exact hcook rfl),
   c5_validation_no_network.2.1 reqEmpty "now" trOk200
     (by rintro ⟨-, s, f, hs, hpf, hck⟩
         injection hs with hs2
         subst hs2
         injection hpf with hf
         subst hf
         exact hck (by decide)),
   c5_validation_no_network.2.2.1 reqEmpty "now" trOk200
     (by rintro ⟨-, s, f, g, u, hs, hpf, htg, -⟩
         injection hs with hs2
         subst hs2
         injection hpf with hf
         subst hf
         exact absurd htg (by decide)),
   c5_validation_no_network.2.2.2.1 reqEmpty trOk200
     (by rintro ⟨-, s, f, g, tid, hs, htrim, hp, hmiss, -⟩
         injection hp with hf
         subst hf
         exact hmiss (Or.inl rfl)),
   c5_validation_no_network.2.2.2.2.1 reqEmpty trOk200
     (by rintro ⟨-, s, f, g, tid, hs, hemp, hp, hmiss, -⟩
         injection hp with hf
         subst hf
         exact hmiss (Or.inl (by decide))),
   c5_validation_no_network.2.2.2.2.2.1 ⟨"POST", {}⟩ trOk200
     (by rintro ⟨-, hmiss⟩
         exact hmiss (Or.inl (by decide))),
   c5_validation_no_network.2.2.2.2.2.2.1 ⟨"POST", {}⟩ trOk200
     (by rintro ⟨-, hmiss⟩
         exact hmiss (Or.inl (by decide))),
   c5_validation_no_network.2.2.2.2.2.2.2 reqEmpty (fun _ => 0) "now" trOk200
     (by rintro ⟨-, s, f, g, u, hs, hpf, htg, -⟩
         injection hs with hs2
         subst hs2
         injection hpf with hf
         subst hf
         exact absurd htg (by decide))⟩

/-- C9: in the get-csrf and change-group-owner variants, any credential
whose cleaned value (trimmed, prefix-stripped) does not start with the
literal `CA` is answered with a 400 and zero outbound calls -- regardless of
its length, so in particular also when it meets the 10-character minimum.
(The 400 with no calls also covers requests that additionally fail an
earlier validation.) -/
theorem c9_ca_gate :
    (∀ (rawBody : String) (f : Fields) (pm nowISO : String)
       (t : Nat → FetchOutcome),
       rawBody ≠ "" →
       startsWithJS (cleanCA f) "CA" = false →
       (getCsrf1 ⟨"POST", some rawBody, some f, pm⟩ nowISO t).1.status = 400 ∧
       (getCsrf1 ⟨"POST", some rawBody, some f, pm⟩ nowISO t).2 = []) ∧
    (∀ (rawBody : String) (f : Fields) (pm nowISO : String)
       (t : Nat → FetchOutcome),
       rawBody ≠ "" →
       startsWithJS (cleanCA f) "CA" = false →
       (changeGroupOwner2 ⟨"POST", some rawBody, some f, pm⟩ nowISO t).1.status = 400 ∧
       (changeGroupOwner2 ⟨"POST", some rawBody, some f, pm⟩ nowISO t).2 = []) := by
  constructor
  · intro rawBody f pm nowISO t hraw hca
    unfold cleanCA at hca
    simp [getCsrf1, if_neg hraw, hca]
  · intro rawBody f pm nowISO t hraw hca
    unfold cleanCA at hca
    by_cases htg : truthyS f.groupId = true
    · by_cases htu : truthyS f.userId = true
      · cases hpg : parseIntJS (fS f.groupId) with
        | none => simp [changeGroupOwner2, if_neg hraw, htg, htu, hpg]
        | some g =>
          by_cases hgle : g ≤ 0
          · simp [changeGroupOwner2, if_neg hraw, htg, htu, hpg, hgle]
          · cases hpu : parseIntJS (fS f.userId) with
            | none =>
              simp [changeGroupOwner2, if_neg hraw, htg, htu, hpg, hgle, hpu]
            | some u =>
              by_cases hule : u ≤ 0
              · simp [changeGroupOwner2, if_neg hraw, htg, htu, hpg, hgle,
                  hpu, hule]
              · simp [changeGroupOwner2, if_neg hraw, htg, htu, hpg, hgle,
                  hpu, hule, hca]
      · simp only [Bool.not_eq_true] at htu
        simp [changeGroupOwner2, if_neg hraw, htg, htu]
    · simp only [Bool.not_eq_true] at htg
      simp [changeGroupOwner2, if_neg hraw, htg]

/-- A 18-character credential that does not start with `CA`. -/
def fXB : Fields :=
  { cookie := some "XBEaAhAD1234567890", groupId := some "1",
    userId := some "2" }

/-- C9 witness: the theorem applied to a concrete long-enough credential
without the `CA` prefix. -/
theorem c9_witness :
    ((getCsrf1 ⟨"POST", some "x", some fXB, ""⟩ "now" trOk200).1.status = 400 ∧
     (getCsrf1 ⟨"POST", some "x", some fXB, ""⟩ "now" trOk200).2 = []) ∧
    ((changeGroupOwner2 ⟨"POST", some "x", some fXB, ""⟩ "now" trOk200).1.status = 400 ∧
     (changeGroupOwner2 ⟨"POST", some "x", some fXB, ""⟩ "now" trOk200).2 = []) :=
  ⟨c9_ca_gate.1 "x" fXB "" "now" trOk200 (by decide) (by decide),
   c9_ca_gate.2 "x" fXB "" "now" trOk200 (by decide) (by decide)⟩

/-- `getAuthenticatedUser` reports the same result for any two credentials
(the credential only flows into the outbound cookie header), and issues the
same number of calls. -/
theorem gauNI (c c' : String) (t : Nat → FetchOutcome) :
    (getAuthenticatedUser c t).1 = (getAuthenticatedUser c' t).1 ∧
    (getAuthenticatedUser c t).2.length = (getAuthenticatedUser c' t).2.length := by
  unfold getAuthenticatedUser
  cases h0 : t 0 with
  | thrown m => simp
  | resp r =>
    cases hok : okStatus r.status with
    | false => simp [hok]
    | true =>
      cases hj : r.bodyJson with
      | none => simp [hok, hj]
      | some u =>
        cases htr : (truthyJ u && truthyO (jGet u "id") && truthyO (jGet u "name")) with
        | false => simp [hok, hj, htr]
        | true => simp [hok, hj, htr]

/-- `checkAccountEligibility` likewise. -/
theorem eligNI (ageOf : String → Int) (c c' : String) (t : Nat → FetchOutcome) :
    (checkAccountEligibility ageOf c t).1 = (checkAccountEligibility ageOf c' t).1 ∧
    (checkAccountEligibility ageOf c t).2.length =
      (checkAccountEligibility ageOf c' t).2.length := by
  obtain ⟨h1, h2⟩ := gauNI c c' t
  unfold checkAccountEligibility
  cases ha : (getAuthenticatedUser c t).1 with
  | fail e =>
    have ha' : (getAuthenticatedUser c' t).1 = AuthRes.fail e := by
      rw [← h1, ha]
    simp [ha, ha', h2]
  | ok uid uname =>
    have ha' : (getAuthenticatedUser c' t).1 = AuthRes.ok uid uname := by
      rw [← h1, ha]
    cases h1' : t 1 with
    | thrown m => simp [ha, ha', h1', h2]
    | resp r =>
      cases hok : okStatus r.status with
      | false => simp [ha, ha', h1', hok, h2]
      | true =>
        cases hj : r.bodyJson with
        | none => simp [ha, ha', h1', hok, hj, h2]
        | some u => simp [ha, ha', h1', hok, hj, h2]

/-- `getGroupInfo` likewise. -/
theorem groupNI (g : Int) (c c' : String) (t : Nat → FetchOutcome) :
    (getGroupInfo g c t).1 = (getGroupInfo g c' t).1 ∧
    (getGroupInfo g c t).2.length = (getGroupInfo g c' t).2.length := by
  unfold getGroupInfo
  cases h0 : t 0 with
  | thrown m => simp
  | resp r =>
    cases hok : okStatus r.status with
    | false => simp [hok]
    | true =>
      cases hj : r.bodyJson with
      | none => simp [hok, hj]
      | some u => simp [hok, hj]

/-- The fallback loop issues the same calls and result for any two
credentials, given equally long accumulators. -/
theorem csrfFallbackNI (c c' : String) (t : Nat → FetchOutcome) :
    ∀ (urls : List String) (i : Nat) (acc acc' : List Outbound),
      acc.length = acc'.length →
      (csrfFallback c t i acc urls).1 = (csrfFallback c' t i acc' urls).1 ∧
      (csrfFallback c t i acc urls).2.length =
        (csrfFallback c' t i acc' urls).2.length := by
  intro urls
  induction urls with
  | nil => intro i acc acc' hl; exact ⟨rfl, hl⟩
  | cons url rest ih =>
    intro i acc acc' hl
    have hl2 : (acc ++ [(⟨url, ".ROBLOSECURITY=" ++ c, none⟩ : Outbound)]).length =
        (acc' ++ [(⟨url, ".ROBLOSECURITY=" ++ c', none⟩ : Outbound)]).length := by
      simp [hl]
    show ((csrfFallback c t i acc (url :: rest)).1 = _) ∧ _
    unfold csrfFallback
    cases h0 : t i with
    | thrown m => simpa using ih (i + 1) _ _ hl2
    | resp r =>
      cases hh : r.csrfHeader with
      | some tok => simpa [hh, hl] using hl2
      | none => simpa [hh] using ih (i + 1) _ _ hl2

/-- `getCSRFToken` likewise. -/
theorem csrfNI (c c' : String) (t : Nat → FetchOutcome) :
    (getCSRFToken c t).1 = (getCSRFToken c' t).1 ∧
    (getCSRFToken c t).2.length = (getCSRFToken c' t).2.length := by
  unfold getCSRFToken
  cases h0 : t 0 with
  | thrown m => simpa using csrfFallbackNI c c' t csrfEndpoints 1 _ _ (by simp)
  | resp r =>
    cases hh : r.csrfHeader with
    | some tok => simp [hh]
    | none => simpa [hh] using csrfFallbackNI c c' t csrfEndpoints 1 _ _ (by simp)

/-- `transferGroupOwnership` likewise (for any two CSRF tokens as well: the
token also only flows into the outbound header). -/
theorem transferNI (g u : Int) (c c' tok tok' : String) (t : Nat → FetchOutcome) :
    (transferGroupOwnership g u c tok t).1 = (transferGroupOwnership g u c' tok' t).1 ∧
    (transferGroupOwnership g u c tok t).2.length =
      (transferGroupOwnership g u c' tok' t).2.length := by
  unfold transferGroupOwnership
  cases h0 : t 0 with
  | thrown m => simp
  | resp r =>
    cases hok : okStatus r.status with
    | false => simp [hok]
    | true => simp [hok]

/-- `transferGroupOwnershipAlternative` likewise. -/
theorem altNI (g u : Int) (c c' tok tok' : String) (t : Nat → FetchOutcome) :
    (transferGroupOwnershipAlternative g u c tok t).1 =
      (transferGroupOwnershipAlternative g u c' tok' t).1 ∧
    (transferGroupOwnershipAlternative g u c tok t).2.length =
      (transferGroupOwnershipAlternative g u c' tok' t).2.length := by
  unfold transferGroupOwnershipAlternative
  cases h0 : t 0 with
  | thrown m => simp
  | resp r =>
    by_cases hok : (okStatus r.status = true ∨ r.status = 204)
    · simp [hok]
    · simp [hok]

/-- Steps 3-5 of the comprehensive handler report the same response for any
two credentials, and issue the same number of calls. -/
theorem hbStepsNI (g u : Int) (eg : Elig) (w : List String)
    (c c' nowISO : String) (gn : String → J) (t : Nat → FetchOutcome) :
    (hbSteps35 g u eg w c nowISO gn t).1 = (hbSteps35 g u eg w c' nowISO gn t).1 ∧
    (hbSteps35 g u eg w c nowISO gn t).2.length =
      (hbSteps35 g u eg w c' nowISO gn t).2.length := by
  obtain ⟨g1, g2⟩ := groupNI g c c' t
  unfold hbSteps35
  cases hgr : (getGroupInfo g c t).1 with
  | fail e =>
    have hgr' : (getGroupInfo g c' t).1 = GRes.fail e := by rw [← g1, hgr]
    simp [hgr, hgr', g2]
  | ok gd =>
    have hgr' : (getGroupInfo g c' t).1 = GRes.ok gd := by rw [← g1, hgr]
    cases hown : (!truthyJ gd || !truthyO (jGet gd "owner") ||
        !truthyO (match jGet gd "owner" with
                  | some ow => jGet ow "userId"
                  | none => none)) with
    | true => simp [hgr, hgr', hown, g2]
    | false =>
      cases hpo : jParseInt (match jGet gd "owner" with
          | some ow => jGet ow "userId"
          | none => none) with
      | none => simp [hgr, hgr', hown, hpo, g2]
      | some cur =>
        cases heq : eqNum (some cur) eg.userId with
        | false => simp [hgr, hgr', hown, hpo, heq, g2]
        | true =>
          obtain ⟨cs1, cs2⟩ := csrfNI c c'
            (shiftT t (getGroupInfo g c t).2.length)
          cases hcs : (getCSRFToken c (shiftT t (getGroupInfo g c t).2.length)).1 with
          | failure e =>
            have hcs' : (getCSRFToken c'
                (shiftT t (getGroupInfo g c t).2.length)).1 = CSRFRes.failure e := by
              rw [← cs1, hcs]
            simp [hgr, hgr', hown, hpo, heq, ← g2, hcs, hcs', cs2]
          | success tok =>
            have hcs' : (getCSRFToken c'
                (shiftT t (getGroupInfo g c t).2.length)).1 =
                CSRFRes.success tok := by
              rw [← cs1, hcs]
            obtain ⟨tr1, tr2⟩ := transferNI g u c c' tok tok
              (shiftT t ((getGroupInfo g c t).2.length +
                (getCSRFToken c (shiftT t (getGroupInfo g c t).2.length)).2.length))
            cases htr : (transferGroupOwnership g u c tok
                (shiftT t ((getGroupInfo g c t).2.length +
                  (getCSRFToken c (shiftT t (getGroupInfo g c t).2.length)).2.length))).1 with
            | ok d =>
              have htr' : (transferGroupOwnership g u c' tok
                  (shiftT t ((getGroupInfo g c t).2.length +
                    (getCSRFToken c (shiftT t (getGroupInfo g c t).2.length)).2.length))).1 =
                  TRes.ok d := by
                rw [← tr1, htr]
              simp [hgr, hgr', hown, hpo, heq, ← g2, hcs, hcs', ← cs2, htr,
                htr', tr2]
            | fail err sc =>
              have htr' : (transferGroupOwnership g u c' tok
                  (shiftT t ((getGroupInfo g c t).2.length +
                    (getCSRFToken c (shiftT t (getGroupInfo g c t).2.length)).2.length))).1 =
                  TRes.fail err sc := by
                rw [← tr1, htr]
              by_cases hch : (sc = 403 ∧ strIncludes err "Challenge" = true)
              · obtain ⟨a1, a2⟩ := altNI g u c c' tok tok
                  (shiftT t ((getGroupInfo g c t).2.length +
                    (getCSRFToken c (shiftT t (getGroupInfo g c t).2.length)).2.length +
                    (transferGroupOwnership g u c tok
                      (shiftT t ((getGroupInfo g c t).2.length +
                        (getCSRFToken c (shiftT t (getGroupInfo g c t).2.length)).2.length))).2.length))
                cases halt : (transferGroupOwnershipAlternative g u c tok
                    (shiftT t ((getGroupInfo g c t).2.length +
                      (getCSRFToken c (shiftT t (getGroupInfo g c t).2.length)).2.length +
                      (transferGroupOwnership g u c tok
                        (shiftT t ((getGroupInfo g c t).2.length +
                          (getCSRFToken c (shiftT t (getGroupInfo g c t).2.length)).2.length))).2.length))).1 with
                | ok d2 =>
                  have halt' := halt
                  rw [a1] at halt'
                  simp [hgr, hgr', hown, hpo, heq, ← g2, hcs, hcs', ← cs2,
                    htr, htr', ← tr2, hch, halt, halt', a2]
                | fail err2 sc2 =>
                  have halt' := halt
                  rw [a1] at halt'
                  simp [hgr, hgr', hown, hpo, heq, ← g2, hcs, hcs', ← cs2,
                    htr, htr', ← tr2, hch, halt, halt', a2]
              · simp [hgr, hgr', hown, hpo, heq, ← g2, hcs, hcs', ← cs2, htr,
                  htr', tr2, hch]

/-- A well-formed credential: already trimmed, not quoted, carrying the `CA`
prefix, without the cookie-pair prefix, and of plausible length.  Under
this, every variant's cookie validation passes. -/
def goodCred (c : String) : Prop :=
  trimJS c = c ∧ stripQuotesJS c = c ∧ startsWithJS c "CA" = true ∧
  startsWithJS c ".ROBLOSECURITY=" = false ∧ 16 ≤ c.length

instance (c : String) : Decidable (goodCred c) := by
  unfold goodCred; infer_instance

/-- The normalisations every handler applies leave a well-formed credential
unchanged and passing. -/
theorem goodCredFacts (c : String) (h : goodCred c) :
    stripRobloPrefix (trimJS c) = c ∧ stripQuotesJS (trimJS c) = c ∧
    c ≠ "" ∧ ¬ (c.length < 10) := by
  obtain ⟨h1, h2, h3, h4, h5⟩ := h
  refine ⟨?_, ?_, ?_, by omega⟩
  · rw [h1]
    unfold stripRobloPrefix
    simp [h4]
  · rw [h1, h2]
  · intro he
    rw [he] at h5
    exact absurd h5 (by decide)

/-- The payload with its credential replaced. -/
def withCookie (f : Fields) (c : String) : Fields := { f with cookie := some c }

/-- Field extraction of a present value. -/
theorem fS_some (s : String) : fS (some s) = s := rfl

/-- The get-csrf (logout) handler's response is credential-blind for
well-formed credentials. -/
theorem c8aux3 (c c' : String) (hc : goodCred c) (hc' : goodCred c')
    (m : String) (raw : Option String) (f : Fields) (pm : String)
    (t : Nat → FetchOutcome) :
    (getCsrf3 ⟨m, raw, some (withCookie f c), pm⟩ t).1 =
    (getCsrf3 ⟨m, raw, some (withCookie f c'), pm⟩ t).1 := by
  obtain ⟨-, hq, hne, -⟩ := goodCredFacts c hc
  obtain ⟨-, hq', hne', -⟩ := goodCredFacts c' hc'
  by_cases hm : m = "POST"
  · subst hm
    cases raw with
    | none => simp [getCsrf3]
    | some s =>
      by_cases htrim : trimJS s = ""
      · simp [getCsrf3, htrim]
      · cases h0 : t 0 with
        | thrown msg =>
          simp [getCsrf3, withCookie, fS_some, htrim, hq, hq', hne, hne', h0]
        | resp r =>
          cases hh : r.csrfHeader <;>
            simp [getCsrf3, withCookie, fS_some, htrim, hq, hq', hne, hne', h0, hh]
  · simp [getCsrf3, hm]

/-- The get-csrf (login) handler's response is credential-blind for
well-formed credentials. -/
theorem c8aux1 (c c' : String) (hc : goodCred c) (hc' : goodCred c')
    (m : String) (raw : Option String) (f : Fields) (pm nowISO : String)
    (t : Nat → FetchOutcome) :
    (getCsrf1 ⟨m, raw, some (withCookie f c), pm⟩ nowISO t).1 =
    (getCsrf1 ⟨m, raw, some (withCookie f c'), pm⟩ nowISO t).1 := by
  obtain ⟨hp, -, hne, hlen⟩ := goodCredFacts c hc
  obtain ⟨hp', -, hne', hlen'⟩ := goodCredFacts c' hc'
  by_cases hm : m = "POST"
  · subst hm
    cases raw with
    | none => simp [getCsrf1]
    | some s =>
      by_cases hs : s = ""
      · simp [getCsrf1, hs]
      · cases h0 : t 0 with
        | thrown msg =>
          simp [getCsrf1, withCookie, fS_some, hs, hp, hp', hne, hne', hlen, hlen',
            hc.2.2.1, hc'.2.2.1, h0]
        | resp r =>
          cases hh : r.csrfHeader <;>
            simp [getCsrf1, withCookie, fS_some, hs, hp, hp', hne, hne', hlen,
              hlen', hc.2.2.1, hc'.2.2.1, h0, hh]
  · simp [getCsrf1, hm]

/-- The change-owner (part_000) handler's response is credential-blind for
well-formed credentials. -/
theorem c8aux0 (c c' : String) (hc : goodCred c) (hc' : goodCred c')
    (m : String) (raw : Option String) (f : Fields) (pm : String)
    (t : Nat → FetchOutcome) :
    (changeOwner0 ⟨m, raw, some (withCookie f c), pm⟩ t).1 =
    (changeOwner0 ⟨m, raw, some (withCookie f c'), pm⟩ t).1 := by
  obtain ⟨-, hq, hne, -⟩ := goodCredFacts c hc
  obtain ⟨-, hq', hne', -⟩ := goodCredFacts c' hc'
  have ok401 : okStatus 401 = false := by decide
  have ok403 : okStatus 403 = false := by decide
  by_cases hm : m = "POST"
  · subst hm
    cases raw with
    | none => simp [changeOwner0]
    | some s =>
      by_cases htrim : trimJS s = ""
      · simp [changeOwner0, htrim]
      · by_cases hcs : fS f.csrfToken = ""
        · simp [changeOwner0, withCookie, fS_some, htrim, hq, hq', hne, hne', hcs]
        · by_cases htg : truthyS f.groupId = true
          · by_cases htt : truthyS f.targetId = true
            · cases hpg : parseIntJS (fS f.groupId) with
              | none =>
                simp [changeOwner0, withCookie, fS_some, htrim, hq, hq', hne, hne',
                  hcs, htg, htt, hpg]
              | some g =>
                cases hpt : parseIntJS (fS f.targetId) with
                | none =>
                  simp [changeOwner0, withCookie, fS_some, htrim, hq, hq', hne,
                    hne', hcs, htg, htt, hpg, hpt]
                | some tid =>
                  cases h0 : t 0 with
                  | thrown msg =>
                    simp [changeOwner0, withCookie, fS_some, htrim, hq, hq', hne,
                      hne', hcs, htg, htt, hpg, hpt, h0]
                  | resp r =>
                    cases hok : okStatus r.status with
                    | true =>
                      simp [changeOwner0, withCookie, fS_some, htrim, hq, hq', hne,
                        hne', hcs, htg, htt, hpg, hpt, h0, hok]
                    | false =>
                      by_cases h401 : r.status = 401
                      · simp [changeOwner0, withCookie, fS_some, htrim, hq, hq',
                          hne, hne', hcs, htg, htt, hpg, hpt, h0, hok, h401,
                          ok401]
                      · by_cases h403 : r.status = 403 <;>
                          simp [changeOwner0, withCookie, fS_some, htrim, hq, hq',
                            hne, hne', hcs, htg, htt, hpg, hpt, h0, hok, h401,
                            h403, ok403]
            · simp only [Bool.not_eq_true] at htt
              simp [changeOwner0, withCookie, fS_some, htrim, hq, hq', hne, hne',
                hcs, htg, htt]
          · simp only [Bool.not_eq_true] at htg
            simp [changeOwner0, withCookie, fS_some, htrim, hq, hq', hne, hne', hcs,
              htg]
  · simp [changeOwner0, hm]

/-- Truthiness of a present well-formed credential. -/
theorem truthyS_goodCred (c : String) (hc : goodCred c) :
    truthyS (some c) = true := by
  obtain ⟨-, -, hne, -⟩ := goodCredFacts c hc
  simp [truthyS, fS_some, hne]

/-- The change-owner (part_005) handler's response is credential-blind for
well-formed credentials. -/
theorem c8aux5 (c c' : String) (hc : goodCred c) (hc' : goodCred c')
    (m : String) (raw : Option String) (f : Fields) (pm : String)
    (t : Nat → FetchOutcome) :
    (changeOwner5 ⟨m, raw, some (withCookie f c), pm⟩ t).1 =
    (changeOwner5 ⟨m, raw, some (withCookie f c'), pm⟩ t).1 := by
  have htc := truthyS_goodCred c hc
  have htc' := truthyS_goodCred c' hc'
  by_cases hm : m = "POST"
  · subst hm
    cases raw with
    | none => simp [changeOwner5]
    | some s =>
      by_cases hemp : (s = "" ∨ trimJS s = "")
      · simp [changeOwner5, hemp]
      · by_cases hmiss : (!truthyS f.csrfToken || !truthyS f.groupId ||
            !truthyS f.targetId) = true
        · simp [changeOwner5, withCookie, hemp, htc, htc', hmiss]
        · cases hpg : parseIntJS (fS f.groupId) with
          | none =>
            simp [changeOwner5, withCookie, hemp, htc, htc', hmiss, hpg]
          | some g =>
            cases hpt : parseIntJS (fS f.targetId) with
            | none =>
              simp [changeOwner5, withCookie, hemp, htc, htc', hmiss, hpg, hpt]
            | some tid =>
              cases h0 : t 0 with
              | thrown msg =>
                simp [changeOwner5, withCookie, hemp, htc, htc', hmiss, hpg,
                  hpt, h0]
              | resp r =>
                cases hj : r.bodyJson with
                | none =>
                  simp [changeOwner5, withCookie, hemp, htc, htc', hmiss, hpg,
                    hpt, h0, hj]
                | some d =>
                  cases hok : okStatus r.status with
                  | true =>
                    simp [changeOwner5, withCookie, hemp, htc, htc', hmiss,
                      hpg, hpt, h0, hj, hok]
                  | false =>
                    simp [changeOwner5, withCookie, hemp, htc, htc', hmiss,
                      hpg, hpt, h0, hj, hok]
  · simp [changeOwner5, hm]

/-- The change-owner (part_004) handler's response is credential-blind for
well-formed credentials. -/
theorem c8aux4 (c c' : String) (hc : goodCred c) (hc' : goodCred c')
    (m : String) (f : Fields) (t : Nat → FetchOutcome) :
    (changeOwner4 ⟨m, withCookie f c⟩ t).1 =
    (changeOwner4 ⟨m, withCookie f c'⟩ t).1 := by
  have htc := truthyS_goodCred c hc
  have htc' := truthyS_goodCred c' hc'
  by_cases hm : m = "POST"
  · subst hm
    by_cases hmiss : (!truthyS f.ownerId || !truthyS f.targetId ||
        !truthyS f.groupId) = true
    · simp [changeOwner4, withCookie, htc, htc', hmiss]
    · cases h0 : t 0 with
      | thrown msg => simp [changeOwner4, withCookie, htc, htc', hmiss, h0]
      | resp r =>
        cases hh : r.csrfHeader with
        | none => simp [changeOwner4, withCookie, htc, htc', hmiss, h0, hh]
        | some tok =>
          cases h1 : t 1 with
          | thrown msg =>
            simp [changeOwner4, withCookie, htc, htc', hmiss, h0, hh, h1]
          | resp r2 =>
            cases hj : r2.bodyJson with
            | none =>
              simp [changeOwner4, withCookie, htc, htc', hmiss, h0, hh, h1, hj]
            | some d =>
              cases hok : okStatus r2.status with
              | true =>
                simp [changeOwner4, withCookie, htc, htc', hmiss, h0, hh, h1,
                  hj, hok]
              | false =>
                simp [changeOwner4, withCookie, htc, htc', hmiss, h0, hh, h1,
                  hj, hok]
  · simp [changeOwner4, hm]

/-- The single-file transfer handler's response is credential-blind for
well-formed credentials. -/
theorem c8auxA (c c' : String) (hc : goodCred c) (hc' : goodCred c')
    (m : String) (f : Fields) (t : Nat → FetchOutcome) :
    (transferSimple ⟨m, withCookie f c⟩ t).1 =
    (transferSimple ⟨m, withCookie f c'⟩ t).1 := by
  have htc := truthyS_goodCred c hc
  have htc' := truthyS_goodCred c' hc'
  by_cases hm : m = "POST"
  · subst hm
    by_cases hmiss : (!truthyS f.groupId || !truthyS f.newOwnerId) = true
    · simp [transferSimple, withCookie, htc, htc', hmiss]
    · cases h0 : t 0 with
      | thrown msg => simp [transferSimple, withCookie, htc, htc', hmiss, h0]
      | resp r =>
        cases hok : okStatus r.status with
        | false => simp [transferSimple, withCookie, htc, htc', hmiss, h0, hok]
        | true =>
          cases hh : r.csrfHeader with
          | none =>
            simp [transferSimple, withCookie, htc, htc', hmiss, h0, hok, hh]
          | some tok =>
            cases h1 : t 1 with
            | thrown msg =>
              simp [transferSimple, withCookie, htc, htc', hmiss, h0, hok, hh, h1]
            | resp r2 =>
              cases hok2 : okStatus r2.status with
              | false =>
                simp [transferSimple, withCookie, htc, htc', hmiss, h0, hok,
                  hh, h1, hok2]
              | true =>
                cases hj : r2.bodyJson with
                | none =>
                  simp [transferSimple, withCookie, htc, htc', hmiss, h0, hok,
                    hh, h1, hok2, hj]
                | some d =>
                  simp [transferSimple, withCookie, htc, htc', hmiss, h0, hok,
                    hh, h1, hok2, hj]
  · simp [transferSimple, hm]

/-- The change-group-owner variant's response is credential-blind for
well-formed credentials. -/
theorem c8aux2 (c c' : String) (hc : goodCred c) (hc' : goodCred c')
    (m : String) (raw : Option String) (f : Fields) (pm nowISO : String)
    (t : Nat → FetchOutcome) :
    (changeGroupOwner2 ⟨m, raw, some (withCookie f c), pm⟩ nowISO t).1 =
    (changeGroupOwner2 ⟨m, raw, some (withCookie f c'), pm⟩ nowISO t).1 := by
  obtain ⟨hp, -, hne, hlen⟩ := goodCredFacts c hc
  obtain ⟨hp', -, hne', hlen'⟩ := goodCredFacts c' hc'
  by_cases hm : m = "POST"
  · subst hm
    cases raw with
    | none => simp [changeGroupOwner2]
    | some s =>
      by_cases hs : s = ""
      · simp [changeGroupOwner2, hs]
      · by_cases htg : truthyS f.groupId = true
        · by_cases htu : truthyS f.userId = true
          · cases hpg : parseIntJS (fS f.groupId) with
            | none => simp [changeGroupOwner2, withCookie, hs, htg, htu, hpg]
            | some g =>
              by_cases hgle : g ≤ 0
              · simp [changeGroupOwner2, withCookie, hs, htg, htu, hpg, hgle]
              · cases hpu : parseIntJS (fS f.userId) with
                | none =>
                  simp [changeGroupOwner2, withCookie, hs, htg, htu, hpg,
                    hgle, hpu]
                | some u =>
                  by_cases hule : u ≤ 0
                  · simp [changeGroupOwner2, withCookie, hs, htg, htu, hpg,
                      hgle, hpu, hule]
                  · cases h0 : t 0 with
                    | thrown msg =>
                      simp [changeGroupOwner2, withCookie, fS_some, hs, htg,
                        htu, hpg, hgle, hpu, hule, hp, hp', hne, hne', hlen,
                        hlen', hc.2.2.1, hc'.2.2.1, h0]
                    | resp r =>
                      cases hh : r.csrfHeader with
                      | none =>
                        simp [changeGroupOwner2, withCookie, fS_some, hs, htg,
                          htu, hpg, hgle, hpu, hule, hp, hp', hne, hne', hlen,
                          hlen', hc.2.2.1, hc'.2.2.1, h0, hh]
                      | some tok =>
                        cases h1 : t 1 with
                        | thrown msg =>
                          simp [changeGroupOwner2, withCookie, fS_some, hs,
                            htg, htu, hpg, hgle, hpu, hule, hp, hp', hne,
                            hne', hlen, hlen', hc.2.2.1, hc'.2.2.1, h0, hh, h1]
                        | resp r2 =>
                          by_cases h200 : r2.status = 200
                          · simp [changeGroupOwner2, withCookie, fS_some, hs,
                              htg, htu, hpg, hgle, hpu, hule, hp, hp', hne,
                              hne', hlen, hlen', hc.2.2.1, hc'.2.2.1, h0, hh,
                              h1, h200]
                          · simp [changeGroupOwner2, withCookie, fS_some, hs,
                              htg, htu, hpg, hgle, hpu, hule, hp, hp', hne,
                              hne', hlen, hlen', hc.2.2.1, hc'.2.2.1, h0, hh,
                              h1, h200]
          · simp only [Bool.not_eq_true] at htu
            simp [changeGroupOwner2, withCookie, hs, htg, htu]
        · simp only [Bool.not_eq_true] at htg
          simp [changeGroupOwner2, withCookie, hs, htg]
  · simp [changeGroupOwner2, hm]

/-- The comprehensive transfer handler's response is credential-blind for
well-formed credentials. -/
theorem c8auxB (c c' : String) (hc : goodCred c) (hc' : goodCred c')
    (m : String) (raw : Option String) (f : Fields) (pm nowISO : String)
    (ageOf : String → Int) (t : Nat → FetchOutcome) :
    (changeGroupOwnerFull ⟨m, raw, some (withCookie f c), pm⟩ ageOf nowISO t).1 =
    (changeGroupOwnerFull ⟨m, raw, some (withCookie f c'), pm⟩ ageOf nowISO t).1 := by
  obtain ⟨hp, -, hne, hlen⟩ := goodCredFacts c hc
  obtain ⟨hp', -, hne', hlen'⟩ := goodCredFacts c' hc'
  have htc := truthyS_goodCred c hc
  have htc' := truthyS_goodCred c' hc'
  by_cases hm : m = "POST"
  · subst hm
    cases raw with
    | none => simp [changeGroupOwnerFull]
    | some s =>
      by_cases hs : s = ""
      · simp [changeGroupOwnerFull, hs]
      · by_cases htg : truthyS f.groupId = true
        · by_cases htu : truthyS f.userId = true
          · cases hpg : parseIntJS (fS f.groupId) with
            | none =>
              simp [changeGroupOwnerFull, withCookie, hs, htg, htu, htc, htc',
                hpg]
            | some g =>
              by_cases hgle : g ≤ 0
              · simp [changeGroupOwnerFull, withCookie, hs, htg, htu, htc,
                  htc', hpg, hgle]
              · cases hpu : parseIntJS (fS f.userId) with
                | none =>
                  simp [changeGroupOwnerFull, withCookie, hs, htg, htu, htc,
                    htc', hpg, hgle, hpu]
                | some u =>
                  by_cases hule : u ≤ 0
                  · simp [changeGroupOwnerFull, withCookie, hs, htg, htu, htc,
                      htc', hpg, hgle, hpu, hule]
                  · obtain ⟨e1, e2⟩ := eligNI ageOf c c' t
                    cases hel : (checkAccountEligibility ageOf c t).1 with
                    | fail e =>
                      have hel' : (checkAccountEligibility ageOf c' t).1 =
                          EligRes.fail e := by rw [← e1, hel]
                      simp [changeGroupOwnerFull, withCookie, fS_some, hs, htg,
                        htu, htc, htc', hpg, hgle, hpu, hule, hp, hp', hne,
                        hne', hlen, hlen', hel, hel']
                    | ok eg =>
                      have hel' : (checkAccountEligibility ageOf c' t).1 =
                          EligRes.ok eg := by rw [← e1, hel]
                      obtain ⟨s1, s2⟩ := hbStepsNI g u eg
                        ((if 0 ≤ eg.accountAge ∧ eg.accountAge < 30 then
                            ["Account is less than 30 days old - may face additional restrictions"]
                          else []) ++
                         (if !eg.hasVerifiedEmail then
                            ["Email not verified - may cause transfer restrictions"]
                          else []))
                        c c' nowISO (fun str => J.str (strOr str "Unknown"))
                        (shiftT t (checkAccountEligibility ageOf c t).2.length)
                      simp only [Bool.not_eq_true'] at s1 s2
                      have htnone : truthyS none = false := rfl
                      cases hpid : f.playerId with
                      | none =>
                        simp [changeGroupOwnerFull, withCookie, fS_some, hs,
                          htg, htu, htc, htc', hpg, hgle, hpu, hule, hp, hp',
                          hne, hne', hlen, hlen', hel, hel', hpid, htnone,
                          ← e2, s1]
                      | some pv =>
                        by_cases hpv : truthyS (some pv) = true
                        · by_cases heq :
                            eqNum eg.userId (parseIntJS pv) = true
                          · simp [changeGroupOwnerFull, withCookie, fS_some,
                              hs, htg, htu, htc, htc', hpg, hgle, hpu, hule,
                              hp, hp', hne, hne', hlen, hlen', hel, hel',
                              hpid, hpv, heq, ← e2, s1]
                          · simp only [Bool.not_eq_true] at heq
                            simp [changeGroupOwnerFull, withCookie, fS_some,
                              hs, htg, htu, htc, htc', hpg, hgle, hpu, hule,
                              hp, hp', hne, hne', hlen, hlen', hel, hel',
                              hpid, hpv, heq, ← e2, s1]
                        · simp only [Bool.not_eq_true] at hpv
                          simp [changeGroupOwnerFull, withCookie, fS_some, hs,
                            htg, htu, htc, htc', hpg, hgle, hpu, hule, hp,
                            hp', hne, hne', hlen, hlen', hel, hel', hpid,
                            hpv, ← e2, s1]
          · simp only [Bool.not_eq_true] at htu
            simp [changeGroupOwnerFull, withCookie, hs, htg, htu, htc, htc']
        · simp only [Bool.not_eq_true] at htg
          simp [changeGroupOwnerFull, withCookie, hs, htg, htc, htc']
  · simp [changeGroupOwnerFull, hm]

/-- C8: no handler echoes the credential in any response. For any two
well-formed credentials and any fixed remote trace, every handler returns
the identical response (status, headers and full JSON body), even though the
outbound calls carry the differing credentials in their cookie headers --
so the response reveals nothing about the secret beyond its validity, and in
particular never contains it. -/
theorem c8_secret_not_echoed :
    ∀ (c c' : String), goodCred c → goodCred c' →
    ∀ (m : String) (raw : Option String) (f : Fields) (pm nowISO : String)
      (ageOf : String → Int) (t : Nat → FetchOutcome),
      ((getCsrf3 ⟨m, raw, some (withCookie f c), pm⟩ t).1 =
       (getCsrf3 ⟨m, raw, some (withCookie f c'), pm⟩ t).1) ∧
      ((getCsrf1 ⟨m, raw, some (withCookie f c), pm⟩ nowISO t).1 =
       (getCsrf1 ⟨m, raw, some (withCookie f c'), pm⟩ nowISO t).1) ∧
      ((changeGroupOwner2 ⟨m, raw, some (withCookie f c), pm⟩ nowISO t).1 =
       (changeGroupOwner2 ⟨m, raw, some (withCookie f c'), pm⟩ nowISO t).1) ∧
      ((changeOwner0 ⟨m, raw, some (withCookie f c), pm⟩ t).1 =
       (changeOwner0 ⟨m, raw, some (withCookie f c'), pm⟩ t).1) ∧
      ((changeOwner5 ⟨m, raw, some (withCookie f c), pm⟩ t).1 =
       (changeOwner5 ⟨m, raw, some (withCookie f c'), pm⟩ t).1) ∧
      ((changeOwner4 ⟨m, withCookie f c⟩ t).1 =
       (changeOwner4 ⟨m, withCookie f c'⟩ t).1) ∧
      ((transferSimple ⟨m, withCookie f c⟩ t).1 =
       (transferSimple ⟨m, withCookie f c'⟩ t).1) ∧
      ((changeGroupOwnerFull ⟨m, raw, some (withCookie f c), pm⟩ ageOf nowISO t).1 =
       (changeGroupOwnerFull ⟨m, raw, some (withCookie f c'), pm⟩ ageOf nowISO t).1) :=
  fun c c' hc hc' m raw f pm nowISO ageOf t =>
    ⟨c8aux3 c c' hc hc' m raw f pm t,
     c8aux1 c c' hc hc' m raw f pm nowISO t,
     c8aux2 c c' hc hc' m raw f pm nowISO t,
     c8aux0 c c' hc hc' m raw f pm t,
     c8aux5 c c' hc hc' m raw f pm t,
     c8aux4 c c' hc hc' m f t,
     c8auxA c c' hc hc' m f t,
     c8auxB c c' hc hc' m raw f pm nowISO ageOf t⟩

/-- A payload carrying every id field the handlers use. -/
def fRich : Fields :=
  { groupId := some "3", userId := some "4", targetId := some "5",
    csrfToken := some "TOK", ownerId := some "6", newOwnerId := some "7" }

/-- C8 witness: the theorem applied to two concrete well-formed credentials
on a concrete trace. -/
theorem c8_witness :
    ((getCsrf3 ⟨"POST", some "x", some (withCookie fRich "CAEaAhAD1234567890"), ""⟩ trOk200).1 =
     (getCsrf3 ⟨"POST", some "x", some (withCookie fRich "CAFbBhBE0987654321"), ""⟩ trOk200).1) ∧
    ((getCsrf1 ⟨"POST", some "x", some (withCookie fRich "CAEaAhAD1234567890"), ""⟩ "now" trOk200).1 =
     (getCsrf1 ⟨"POST", some "x", some (withCookie fRich "CAFbBhBE0987654321"), ""⟩ "now" trOk200).1) ∧
    ((changeGroupOwner2 ⟨"POST", some "x", some (withCookie fRich "CAEaAhAD1234567890"), ""⟩ "now" trOk200).1 =
     (changeGroupOwner2 ⟨"POST", some "x", some (withCookie fRich "CAFbBhBE0987654321"), ""⟩ "now" trOk200).1) ∧
    ((changeOwner0 ⟨"POST", some "x", some (withCookie fRich "CAEaAhAD1234567890"), ""⟩ trOk200).1 =
     (changeOwner0 ⟨"POST", some "x", some (withCookie fRich "CAFbBhBE0987654321"), ""⟩ trOk200).1) ∧
    ((changeOwner5 ⟨"POST", some "x", some (withCookie fRich "CAEaAhAD1234567890"), ""⟩ trOk200).1 =
     (changeOwner5 ⟨"POST", some "x", some (withCookie fRich "CAFbBhBE0987654321"), ""⟩ trOk200).1) ∧
    ((changeOwner4 ⟨"POST", withCookie fRich "CAEaAhAD1234567890"⟩ trOk200).1 =
     (changeOwner4 ⟨"POST", withCookie fRich "CAFbBhBE0987654321"⟩ trOk200).1) ∧
    ((transferSimple ⟨"POST", withCookie fRich "CAEaAhAD1234567890"⟩ trOk200).1 =
     (transferSimple ⟨"POST", withCookie fRich "CAFbBhBE0987654321"⟩ trOk200).1) ∧
    ((changeGroupOwnerFull ⟨"POST", some "x", some (withCookie fRich "CAEaAhAD1234567890"), ""⟩ (fun _ => 0) "now" trOk200).1 =
     (changeGroupOwnerFull ⟨"POST", some "x", some (withCookie fRich "CAFbBhBE0987654321"), ""⟩ (fun _ => 0) "now" trOk200).1) :=
  c8_secret_not_echoed "CAEaAhAD1234567890" "CAFbBhBE0987654321" (by decide)
    (by decide) "POST" (some "x") fRich "" "now" (fun _ => 0) trOk200
